import Mathlib

/-!
Verification of the terrain-generation core (`terrain.py`) against its
natural-language specification.

The numeric pipeline of the source runs on Python floats; here it is embedded
over `ℝ` (the float `**` with a negative real exponent and `sqrt` force real
arithmetic).  Integer lattice bookkeeping (permutation tables, block indices)
is embedded over `ℕ`/`ℤ`.  External collaborators that are not part of the
source file (`FastRandom`, `SimplexNoise.noise2`, the block registry, the
world container, `random.Random`) are modelled from the specification's
description of their interfaces, as noted at each definition.
-/

namespace Terrain

/-- Block identifiers from the external block registry.  The spec (section 6)
describes them as opaque, comparable identifiers that the core never
interprets beyond equality and weighted choice, so an inductive enumeration
of the names used by `terrain.py` is a faithful model. -/
inductive Block where
  | bed | water | air | stone | dirt | grass | sand | sandstone | snow
  | snowgrass | ice | diamondore | sapphireore | rubyore | coalore | gravel
  | ironore | lapisore | quartz | clay
  deriving DecidableEq, Repr, Inhabited

/-- Biome constants `G.DESERT`, `G.PLAINS`, `G.SNOW`, `G.MOUNTAINS`,
`G.FOREST` used by the full generator's biome classification. -/
inductive Biome where
  | desert | plains | snow | mountains | forest
  deriving DecidableEq, Repr, Inhabited

/-- Theme strings used by the sector generator: `G.TERRAIN_CHOICE` ranges over
"plains", "desert", "mountains", "snow", "island" (spec section 3). -/
inductive Theme where
  | plains | desert | mountains | snow | island
  deriving DecidableEq, Repr, Inhabited

/-- Vegetation kinds from the external `nature` module; opaque to the core,
which only passes a chosen kind to the vegetation placement callback. -/
inductive Veg where
  | oakTree | birchTree | jungleTree
  | pumpkin | potato | carrot | waterMelon
  | yFlowers | fern | rose
  | wildGrass0 | wildGrass1 | wildGrass2 | wildGrass3 | wildGrass4
  | wildGrass5 | wildGrass6 | wildGrass7
  | cactus | tallCactus | desertGrass
  deriving DecidableEq, Repr, Inhabited

/-- `_clamp` shared by `BiomeGenerator` and `TerrainGenerator` (identical
bodies in the source): clamp to `[0, 1]`. -/
noncomputable def clamp1 (a : ℝ) : ℝ := if a > 1 then 1 else if a < 0 then 0 else a

theorem clamp1_nonneg (a : ℝ) : 0 ≤ clamp1 a := by
  unfold clamp1
  split_ifs <;> linarith

theorem clamp1_le_one (a : ℝ) : clamp1 a ≤ 1 := by
  unfold clamp1
  split_ifs
  all_goals linarith

theorem clamp1_of_mem {a : ℝ} (h0 : ¬ a > 1) (h1 : ¬ a < 0) : clamp1 a = a := by
  unfold clamp1; split_ifs <;> linarith

/-- Python `int()` on a float: truncation toward zero. -/
noncomputable def pyInt (r : ℝ) : ℤ := if 0 ≤ r then ⌊r⌋ else -⌊-r⌋

theorem pyInt_of_nonneg {r : ℝ} (h : 0 ≤ r) : pyInt r = ⌊r⌋ := by
  unfold pyInt; rw [if_pos h]

/-! ## PerlinNoise (`class PerlinNoise`) -/

/-- `PERSISTENCE = 2.1379201` from `PerlinNoise.__init__`. -/
noncomputable def PERSISTENCE : ℝ := 2.1379201

/-- `H = 0.836281` from `PerlinNoise.__init__`. -/
noncomputable def Hc : ℝ := 0.836281

/-- State of a `PerlinNoise` object.  `perm` models the 512-entry permutation
array as a total function (all accesses performed by `noise` stay below 512).
`weights` models the `self.weights` list as a function (the regenerated list
has `weights[n] = PERSISTENCE ** (-H * n)` for `n < OCTAVES`, and only indices
below `OCTAVES` are ever read). -/
structure PerlinNoise where
  perm : ℕ → ℕ
  OCTAVES : ℕ
  weights : ℕ → ℝ
  regen_weight : Bool

/-- One in-place swap `noise_tbl[i], noise_tbl[j] = noise_tbl[j], noise_tbl[i]`
of the shuffle loop in `PerlinNoise.__init__`. -/
def swapEntries (t : ℕ → ℕ) (i j : ℕ) : ℕ → ℕ :=
  Function.update (Function.update t i (t j)) j (t i)

/-- The shuffled `noise_tbl` of `PerlinNoise.__init__`: the identity table on
`[0, 256)`, then for each `i` in `0..255` a swap with `j = fast_abs(randint()
% 256)`.  `FastRandom` lives in the external `utils` module; its draws are
modelled as an arbitrary stream `draws`, reduced mod 256 exactly as the source
reduces `randint()` (`fast_abs` is the identity on the nonnegative result of
Python's `%`). -/
def noiseTbl (draws : ℕ → ℕ) : ℕ → ℕ :=
  (List.range 256).foldl (fun t i => swapEntries t i (draws i % 256)) (fun i => i)

/-- `PerlinNoise.__init__`: build the permutation table (duplicated to 512:
`perm[i] = perm[i + 256] = noise_tbl[i]`), octaves 9, stale weights flagged
for regeneration.  The initial `[None] * OCTAVES` weights list is modelled by
the constant-zero function; it is never read while `regen_weight` is set. -/
def mkPerlin (draws : ℕ → ℕ) : PerlinNoise :=
  { perm := fun i => noiseTbl draws (i % 256)
    OCTAVES := 9
    weights := fun _ => 0
    regen_weight := true }

/-- The `octave` property setter: store the new octave count and flag the
weights for regeneration. -/
def PerlinNoise.setOctave (p : PerlinNoise) (n : ℕ) : PerlinNoise :=
  { p with OCTAVES := n, regen_weight := true }

/-- `fade(t) = t * t * t * (t * (t * 6 - 15) + 10)`. -/
noncomputable def fade (t : ℝ) : ℝ := t * t * t * (t * (t * 6 - 15) + 10)

/-- `lerp(t, a, b) = a + t * (b - a)`. -/
noncomputable def lerp (t a b : ℝ) : ℝ := a + t * (b - a)

/-- `grad(hash, x, y, z)`: gradient selection by the low 4 bits of the hash. -/
noncomputable def grad (hash : ℕ) (x y z : ℝ) : ℝ :=
  let h := hash &&& 15
  let u := if h < 8 then x else y
  let v := if h < 4 then y else if h = 12 ∨ h = 14 then x else z
  (if h &&& 1 = 0 then u else -u) + (if h &&& 2 = 0 then v else -v)

/-- `PerlinNoise.noise(x, y, z)`: classic improved gradient noise.  Python's
`int(floor(x)) & 255` on a possibly negative integer is two's-complement
masking, which `Int.land` implements; the result is in `[0, 256)`. -/
noncomputable def PerlinNoise.noise (p : PerlinNoise) (x y z : ℝ) : ℝ :=
  let X := (Int.land ⌊x⌋ 255).toNat
  let Y := (Int.land ⌊y⌋ 255).toNat
  let Z := (Int.land ⌊z⌋ 255).toNat
  let x := x - ⌊x⌋
  let y := y - ⌊y⌋
  let z := z - ⌊z⌋
  let u := fade x
  let v := fade y
  let w := fade z
  let A := p.perm X + Y
  let AA := p.perm A + Z
  let AB := p.perm (A + 1) + Z
  let B := p.perm (X + 1) + Y
  let BA := p.perm B + Z
  let BB := p.perm (B + 1) + Z
  lerp w (lerp v (lerp u (grad (p.perm AA) x y z)
                         (grad (p.perm BA) (x - 1) y z))
                 (lerp u (grad (p.perm AB) x (y - 1) z)
                         (grad (p.perm BB) (x - 1) (y - 1) z)))
         (lerp v (lerp u (grad (p.perm (AA + 1)) x y (z - 1))
                         (grad (p.perm (BA + 1)) (x - 1) y (z - 1)))
                 (lerp u (grad (p.perm (AB + 1)) x (y - 1) (z - 1))
                         (grad (p.perm (BB + 1)) (x - 1) (y - 1) (z - 1))))

/-- The octave weights used by `fBm`: if `regen_weight` is set the list is
rebuilt as `[PERSISTENCE ** (-H * n) for n in range(OCTAVES)]`, otherwise the
stored list is used. -/
noncomputable def PerlinNoise.fBmWeights (p : PerlinNoise) : ℕ → ℝ :=
  if p.regen_weight then fun n => Real.rpow PERSISTENCE (-(Hc * n)) else p.weights

/-- The state of the `PerlinNoise` object after a call to `fBm`.  The weights
list is (possibly) rebuilt; everything else is untouched.  In particular the
source's `regen_weight = False` binds a local variable, not the attribute, so
the flag is left unchanged. -/
noncomputable def PerlinNoise.fBmState (p : PerlinNoise) : PerlinNoise :=
  if p.regen_weight then { p with weights := fun n => Real.rpow PERSISTENCE (-(Hc * n)) } else p

/-- `PerlinNoise.fBm(x, y, z)`: sum `OCTAVES` noise samples, scaling the
coordinates by `PERSISTENCE` after each octave and weighting octave `n` by
`weights[n]`. -/
noncomputable def PerlinNoise.fBm (p : PerlinNoise) (x y z : ℝ) : ℝ :=
  let ws := p.fBmWeights
  ((List.range p.OCTAVES).foldl
    (fun (acc : ℝ × ℝ × ℝ × ℝ) n =>
      (acc.1 + p.noise acc.2.1 acc.2.2.1 acc.2.2.2 * ws n,
       acc.2.1 * PERSISTENCE, acc.2.2.1 * PERSISTENCE, acc.2.2.2 * PERSISTENCE))
    (0, x, y, z)).1

theorem lerp_zero (a b : ℝ) : lerp 0 a b = a := by simp [lerp]

theorem grad_zero (h : ℕ) : grad h 0 0 0 = 0 := by
  simp [grad]

/-- At the lattice origin every gradient contribution vanishes, for every
permutation table. -/
theorem noise_zero (p : PerlinNoise) : p.noise 0 0 0 = 0 := by
  unfold PerlinNoise.noise
  simp [fade, lerp_zero, grad_zero]

theorem fBm_zero (p : PerlinNoise) : p.fBm 0 0 0 = 0 := by
  unfold PerlinNoise.fBm
  suffices h : ∀ (l : List ℕ) (t : ℝ),
      (l.foldl (fun (acc : ℝ × ℝ × ℝ × ℝ) n =>
        (acc.1 + p.noise acc.2.1 acc.2.2.1 acc.2.2.2 * p.fBmWeights n,
         acc.2.1 * PERSISTENCE, acc.2.2.1 * PERSISTENCE, acc.2.2.2 * PERSISTENCE))
        (t, 0, 0, 0)).1 = t by
    simpa using h (List.range p.OCTAVES) 0
  intro l
  induction l with
  | nil => intro t; rfl
  | cons a l ih =>
    intro t
    simpa [noise_zero] using ih t

/-! ## BiomeGenerator -/

/-- `BiomeGenerator`: two independent noise fields.  `__init__` builds
`PerlinNoise(seed + 97)` and `PerlinNoise(seed + 147)`; the seeded `FastRandom`
streams behind those constructions are supplied as `draws` arguments to
`mkBiomeGenerator` below. -/
structure BiomeGenerator where
  temperature_gen : PerlinNoise
  humidity_gen : PerlinNoise

/-- `BiomeGenerator.__init__(seed)`: the temperature generator is seeded with
`seed + 97` and the humidity generator with `seed + 147`; the two `FastRandom`
streams those seeds produce are the two `draws` parameters. -/
def mkBiomeGenerator (drawsTemp drawsHum : ℕ → ℕ) : BiomeGenerator :=
  { temperature_gen := mkPerlin drawsTemp
    humidity_gen := mkPerlin drawsHum }

/-- `get_humidity(x, z) = clamp((fBm(x*0.0005, 0, 0.0005*z) + 1) / 2)`. -/
noncomputable def BiomeGenerator.get_humidity (bg : BiomeGenerator) (x z : ℤ) : ℝ :=
  clamp1 ((bg.humidity_gen.fBm (x * 0.0005) 0 (0.0005 * z) + 1.0) / 2.0)

/-- `get_temperature(x, z) = clamp((fBm(x*0.0005, 0, 0.0005*z) + 1) / 2)`. -/
noncomputable def BiomeGenerator.get_temperature (bg : BiomeGenerator) (x z : ℤ) : ℝ :=
  clamp1 ((bg.temperature_gen.fBm (x * 0.0005) 0 (0.0005 * z) + 1.0) / 2.0)

/-- `get_biome_type(x, z)`: the first-match classification of the source.
The source first truncates its arguments with `int(...)`; the embedding takes
the integer coordinates directly. -/
noncomputable def BiomeGenerator.get_biome_type (bg : BiomeGenerator) (x z : ℤ) : Biome :=
  let temp := bg.get_temperature x z
  let humidity := bg.get_humidity x z * temp
  if temp ≥ 0.5 ∧ humidity < 0.3 then Biome.desert
  else if 0.3 ≤ humidity ∧ humidity ≤ 0.6 ∧ temp ≥ 0.5 then Biome.plains
  else if temp ≤ 0.3 ∧ humidity > 0.5 then Biome.snow
  else if 0.2 ≤ humidity ∧ humidity ≤ 0.6 ∧ temp < 0.5 then Biome.mountains
  else Biome.forest

/-! ## TerrainGenerator (full 3D density-field generator) -/

def CHUNK_X_SIZE : ℕ := 16
def CHUNK_Z_SIZE : ℕ := 16
def CHUNK_Y_SIZE : ℕ := 256
def SAMPLE_RATE_HOR : ℕ := 4
def SAMPLE_RATE_VER : ℕ := 4

/-- A generated chunk: position and voxel array.  The source's nested
dict-of-dicts (`init_3d_list`, all entries initialised to `None`) is modelled
as a total function to `Option Block`; indices outside the allocated
`16 x 256 x 16` extent are `none`. -/
structure Chunk where
  x_pos : ℤ
  y_pos : ℤ
  z_pos : ℤ
  blocks : ℕ → ℕ → ℕ → Option Block

/-- `TerrainGenerator`: six noise generators plus the biome classifier. -/
structure TerrainGenerator where
  base_gen : PerlinNoise
  ocean_gen : PerlinNoise
  river_gen : PerlinNoise
  mount_gen : PerlinNoise
  hill_gen : PerlinNoise
  cave_gen : PerlinNoise
  biome_gen : BiomeGenerator

/-- `TerrainGenerator.__init__(seed)`: per-purpose generators with offset
seeds (`seed`, `seed+11`, `seed+31`, `seed+41`, `seed+71`, `seed+141`,
biome `seed+97`/`seed+147`); the `FastRandom` streams of those eight seeds
are the eight `draws` parameters.  `base`, `ocean` and `river` have their
`octave` property set to 8. -/
def mkTerrainGenerator (dBase dOcean dRiver dMount dHill dCave dTemp dHum : ℕ → ℕ) :
    TerrainGenerator :=
  { base_gen := (mkPerlin dBase).setOctave 8
    ocean_gen := (mkPerlin dOcean).setOctave 8
    river_gen := (mkPerlin dRiver).setOctave 8
    mount_gen := mkPerlin dMount
    hill_gen := mkPerlin dHill
    cave_gen := mkPerlin dCave
    biome_gen := mkBiomeGenerator dTemp dHum }

/-- `base_terrain(x, z) = clamp((fBm(0.004x, 0, 0.004z) + 1) / 2)`. -/
noncomputable def TerrainGenerator.base_terrain (g : TerrainGenerator) (x z : ℤ) : ℝ :=
  clamp1 ((g.base_gen.fBm (0.004 * x) 0 (0.004 * z) + 1.0) / 2.0)

/-- `ocean_terrain(x, z) = clamp(fBm(0.0009x, 0, 0.0009z) * 8)`. -/
noncomputable def TerrainGenerator.ocean_terrain (g : TerrainGenerator) (x z : ℤ) : ℝ :=
  clamp1 (g.ocean_gen.fBm (0.0009 * x) 0 (0.0009 * z) * 8.0)

/-- `rive_terrain(x, z) = clamp((sqrt(fast_abs(fBm(0.0008x, 0, 0.0008z))) - 0.1) * 7)`;
`fast_abs` (external `utils`) is the absolute value. -/
noncomputable def TerrainGenerator.rive_terrain (g : TerrainGenerator) (x z : ℤ) : ℝ :=
  clamp1 ((Real.sqrt |g.river_gen.fBm (0.0008 * x) 0 (0.0008 * z)| - 0.1) * 7.0)

/-- `mount_density(x, y, z)`: positive part of `fBm(0.002x, 0.001y, 0.002z)`. -/
noncomputable def TerrainGenerator.mount_density (g : TerrainGenerator) (x y z : ℤ) : ℝ :=
  let ret := g.mount_gen.fBm (x * 0.002) (y * 0.001) (z * 0.002)
  if ret > 0 then ret else 0

/-- `hill_density(x, y, z)`: positive part of `fBm(0.008x, 0.006y, 0.008z) - 0.1`. -/
noncomputable def TerrainGenerator.hill_density (g : TerrainGenerator) (x y z : ℤ) : ℝ :=
  let ret := g.hill_gen.fBm (x * 0.008) (y * 0.006) (z * 0.008) - 0.1
  if ret > 0 then ret else 0

/-- `cave_density(x, y, z) = fBm(0.02x, 0.02y, 0.02z)`. -/
noncomputable def TerrainGenerator.cave_density (g : TerrainGenerator) (x y z : ℤ) : ℝ :=
  g.cave_gen.fBm (x * 0.02) (y * 0.02) (z * 0.02)

/-- `density(x, y, z)` from the source:
`-y + (((32 + height*32) * clamp(river+0.25) * clamp(ocean+0.25)) +
mountains*1024 + hills*128) * flatten` with
`flatten = clamp(((CHUNK_Y_SIZE - 16) - y) / int(CHUNK_Y_SIZE * 0.10))`.
The source is Python 2: the flatten numerator and the `int(...)` divisor are
both integers, so `/` is integer floor division (`Int.fdiv`). -/
noncomputable def TerrainGenerator.density (g : TerrainGenerator) (x y z : ℤ) : ℝ :=
  let height := g.base_terrain x z
  let ocean := g.ocean_terrain x z
  let river := g.rive_terrain x z
  let mountains := g.mount_density x y z
  let hills := g.hill_density x y z
  let flatten := clamp1 ((Int.fdiv ((CHUNK_Y_SIZE : ℤ) - 16 - y)
    (pyInt ((CHUNK_Y_SIZE : ℝ) * 0.10)) : ℤ) : ℝ);
  -(y : ℝ) + (((32.0 + height * 32.0) * clamp1 (river + 0.25) * clamp1 (ocean + 0.25))
    + mountains * 1024.0 + hills * 128.0) * flatten

/-- `TerrainGenerator.lerp(x, x1, x2, v00, v01)` (index-weighted linear
interpolation; distinct from `PerlinNoise.lerp`). -/
noncomputable def TerrainGenerator.lerp (x x1 x2 v00 v01 : ℝ) : ℝ :=
  ((x2 - x) / (x2 - x1)) * v00 + ((x - x1) / (x2 - x1)) * v01

/-- `tri_lerp`: interpolate along x, then y, then z. -/
noncomputable def TerrainGenerator.tri_lerp
    (x y z v000 v001 v010 v011 v100 v101 v110 v111 x1 x2 y1 y2 z1 z2 : ℝ) : ℝ :=
  let x00 := TerrainGenerator.lerp x x1 x2 v000 v100
  let x10 := TerrainGenerator.lerp x x1 x2 v010 v110
  let x01 := TerrainGenerator.lerp x x1 x2 v001 v101
  let x11 := TerrainGenerator.lerp x x1 x2 v011 v111
  let u := TerrainGenerator.lerp y y1 y2 x00 x01
  let v := TerrainGenerator.lerp y y1 y2 x10 x11
  TerrainGenerator.lerp z z1 z2 u v

/-- The sampled density map of `generate_chunk`: the sampling loop stores
`density(world_x(x), y, world_z(z))` at every grid point whose three indices
are multiples of the sample rates (the function below extends that formula to
all indices; only sample-point values are ever read before interpolation). -/
noncomputable def TerrainGenerator.d_map (g : TerrainGenerator) (o : ℤ × ℤ × ℤ)
    (x y z : ℕ) : ℝ :=
  g.density (o.1 + x) y (o.2.2 + z)

/-- `tri_lerp_d_map`: fill every non-sample entry inside the chunk extent by
trilinear interpolation from the 8 surrounding sample points.  The source
updates the nested array in place, but every value read by `tri_lerp` is at a
sample index (all three offsets are multiples of the sample rate), and the
loop never writes at a sample index, so the in-place pass equals this
pointwise description. -/
noncomputable def TerrainGenerator.tri_lerp_d_map (d : ℕ → ℕ → ℕ → ℝ) (x y z : ℕ) : ℝ :=
  if x < CHUNK_X_SIZE ∧ y < CHUNK_Y_SIZE ∧ z < CHUNK_Z_SIZE ∧
      ¬(x % SAMPLE_RATE_HOR = 0 ∧ y % SAMPLE_RATE_VER = 0 ∧ z % SAMPLE_RATE_HOR = 0) then
    let offsetX := x / SAMPLE_RATE_HOR * SAMPLE_RATE_HOR
    let offsetY := y / SAMPLE_RATE_VER * SAMPLE_RATE_VER
    let offsetZ := z / SAMPLE_RATE_HOR * SAMPLE_RATE_HOR
    TerrainGenerator.tri_lerp x y z
      (d offsetX offsetY offsetZ)
      (d offsetX (SAMPLE_RATE_VER + offsetY) offsetZ)
      (d offsetX offsetY (offsetZ + SAMPLE_RATE_HOR))
      (d offsetX (offsetY + SAMPLE_RATE_VER) (offsetZ + SAMPLE_RATE_HOR))
      (d (SAMPLE_RATE_HOR + offsetX) offsetY offsetZ)
      (d (SAMPLE_RATE_HOR + offsetX) (offsetY + SAMPLE_RATE_VER) offsetZ)
      (d (SAMPLE_RATE_HOR + offsetX) offsetY (offsetZ + SAMPLE_RATE_HOR))
      (d (SAMPLE_RATE_HOR + offsetX) (offsetY + SAMPLE_RATE_VER) (offsetZ + SAMPLE_RATE_HOR))
      offsetX (SAMPLE_RATE_HOR + offsetX) offsetY (SAMPLE_RATE_VER + offsetY)
      offsetZ (offsetZ + SAMPLE_RATE_HOR)
  else d x y z

/-- `gen_inner_layer`: stone (mineral generation is a to-do in the source). -/
def gen_inner_layer (y : ℕ) (col : ℕ → Option Block) : ℕ → Option Block :=
  Function.update col y (some Block.stone)

/-- `gen_outer_layer`: biome-dependent surfacing at depth
`first_block - y`.  The source's `if/elif` chain has no final `else`; a biome
outside the five constants would leave the chunk untouched, which the final
branch reproduces. -/
def gen_outer_layer (y : ℕ) (first_block : ℤ) (col : ℕ → Option Block)
    (biome_type : Biome) : ℕ → Option Block :=
  let depth : ℤ := first_block - (y : ℤ)
  if biome_type = Biome.plains ∨ biome_type = Biome.mountains ∨ biome_type = Biome.forest then
    if 28 ≤ y ∧ y ≤ 34 then Function.update col y (some Block.sand)
    else if depth = 0 ∧ 32 < y ∧ y < 128 then Function.update col y (some Block.grass)
    else if depth > 32 then Function.update col y (some Block.stone)
    else Function.update col y (some Block.dirt)
  else if biome_type = Biome.snow then
    if depth = 0 ∧ 32 ≤ y then Function.update col y (some Block.snow)
    else if depth > 32 then Function.update col y (some Block.stone)
    else Function.update col y (some Block.dirt)
  else if biome_type = Biome.desert then
    if depth > 8 then Function.update col y (some Block.stone)
    else Function.update col y (some Block.sand)
  else col

/-- One iteration of the per-column `for y in range(CHUNK_Y_SIZE - 1, 0, -1)`
loop of `generate_chunk`, acting on the column slice of the chunk at the
loop's `(x, z)`.  The `y == 0` bedrock branch is kept for fidelity although
the loop range never reaches `y = 0`. -/
noncomputable def chunkStep (g : TerrainGenerator) (o : ℤ × ℤ × ℤ) (biome_type : Biome)
    (d : ℕ → ℝ) (x z : ℕ) (y : ℕ) (first_block : ℤ) (col : ℕ → Option Block) :
    ℤ × (ℕ → Option Block) :=
  if y = 0 then (first_block, Function.update col 0 (some Block.bed))
  else
    let col := if 0 < y ∧ y ≤ 32 then Function.update col y (some Block.water) else col
    let den := d y
    if 0 ≤ den ∧ den < 32 then
      let first_block := if first_block = -1 then (y : ℤ) else first_block
      if g.cave_density (o.1 + x) y (o.2.2 + z) > -0.7 then
        (first_block, gen_outer_layer y first_block col biome_type)
      else
        (first_block, Function.update col y (some Block.air))
    else if 32 ≤ den then
      let first_block := if first_block = -1 then (y : ℤ) else first_block
      if g.cave_density (o.1 + x) y (o.2.2 + z) > -0.6 then
        (first_block, gen_inner_layer y col)
      else
        (first_block, Function.update col y (some Block.air))
    else
      (-1, col)

/-- Run the column loop from `y` down to `1` (matching
`range(CHUNK_Y_SIZE - 1, 0, -1)`, which stops before `0`). -/
noncomputable def chunkColGo (g : TerrainGenerator) (o : ℤ × ℤ × ℤ) (biome_type : Biome)
    (d : ℕ → ℝ) (x z : ℕ) : ℕ → ℤ → (ℕ → Option Block) → (ℕ → Option Block)
  | 0, _, col => col
  | Nat.succ n, first_block, col =>
      let s := chunkStep g o biome_type d x z (n + 1) first_block col
      chunkColGo g o biome_type d x z n s.1 s.2

/-- The biome used by `generate_chunk` for the column at local indices
`(x, z)`.  The chunk origin `_o` is in scope in the source method, but the
lookup `self.biome_gen.get_biome_type(x, z)` (terrain.py line 259) is made on
the local loop indices, not the world coordinates. -/
noncomputable def TerrainGenerator.columnBiome (g : TerrainGenerator) (_o : ℤ × ℤ × ℤ)
    (x z : ℕ) : Biome :=
  g.biome_gen.get_biome_type (x : ℤ) (z : ℤ)

/-- `generate_chunk(chunk_x, chunk_y, chunk_z)`: sample the density map,
interpolate it, then paint each column top-down.  Columns are independent
(each iteration writes only at its own `(x, z)`), so the chunk is assembled
column-wise. -/
noncomputable def TerrainGenerator.generate_chunk (g : TerrainGenerator)
    (chunk_x chunk_y chunk_z : ℤ) : Chunk :=
  let o : ℤ × ℤ × ℤ := (chunk_x, chunk_y, chunk_z)
  let d := TerrainGenerator.tri_lerp_d_map (g.d_map o)
  { x_pos := chunk_x
    y_pos := chunk_y
    z_pos := chunk_z
    blocks := fun x y z =>
      if x < CHUNK_X_SIZE ∧ z < CHUNK_Z_SIZE then
        chunkColGo g o (g.columnBiome o x z) (fun yy => d x yy z) x z
          (CHUNK_Y_SIZE - 1) (-1) (fun _ => none) y
      else none }

/-! ## Claims about the full generator -/

theorem gen_outer_layer_zero {y : ℕ} (hy : y ≠ 0) (first_block : ℤ)
    (col : ℕ → Option Block) (b : Biome) :
    gen_outer_layer y first_block col b 0 = col 0 := by
  have h0 : (0 : ℕ) ≠ y := fun h => hy h.symm
  unfold gen_outer_layer
  split_ifs <;> simp [Function.update_apply, h0]

theorem chunkStep_zero (g : TerrainGenerator) (o : ℤ × ℤ × ℤ) (b : Biome)
    (d : ℕ → ℝ) (x z : ℕ) {y : ℕ} (hy : y ≠ 0) (fb : ℤ) (col : ℕ → Option Block) :
    (chunkStep g o b d x z y fb col).2 0 = col 0 := by
  have h0 : (0 : ℕ) ≠ y := fun h => hy h.symm
  unfold chunkStep gen_inner_layer
  rw [if_neg hy]
  dsimp only
  split_ifs <;>
    simp [gen_outer_layer_zero hy, Function.update_apply, h0]

theorem chunkColGo_zero (g : TerrainGenerator) (o : ℤ × ℤ × ℤ) (b : Biome)
    (d : ℕ → ℝ) (x z : ℕ) :
    ∀ (n : ℕ) (fb : ℤ) (col : ℕ → Option Block),
      chunkColGo g o b d x z n fb col 0 = col 0 := by
  intro n
  induction n with
  | zero => intro fb col; rfl
  | succ n ih =>
    intro fb col
    show chunkColGo g o b d x z n _ _ 0 = col 0
    rw [ih]
    exact chunkStep_zero g o b d x z (Nat.succ_ne_zero n) fb col

/-- C1: for every generator state, chunk origin and column, the generated
chunk holds NO block at `y = 0` — in particular no bedrock.  The column loop
is `for y in range(CHUNK_Y_SIZE - 1, 0, -1)`, which stops at `y = 1`, so the
`if y == 0: bedrock` branch inside it is dead code and the `y = 0` cell keeps
its initial `None`.  This refutes the claim (and the spec's chunk invariant),
while the dead branch shows bedrock at `y = 0` was the intent: a code bug. -/
theorem generate_chunk_no_bedrock (g : TerrainGenerator) (cx cy cz : ℤ) (x z : ℕ) :
    (g.generate_chunk cx cy cz).blocks x 0 z = none := by
  show (if x < CHUNK_X_SIZE ∧ z < CHUNK_Z_SIZE then _ else none) = none
  split_ifs with h
  · exact chunkColGo_zero _ _ _ _ _ _ _ _ _
  · rfl

theorem pos_part_eq_max (r : ℝ) : (if r > 0 then r else 0) = max 0 r := by
  rcases le_or_lt r 0 with h | h
  · rw [if_neg (not_lt.2 h), max_eq_left h]
  · rw [if_pos h, max_eq_right h.le]

theorem mount_density_nonneg (g : TerrainGenerator) (x y z : ℤ) :
    0 ≤ g.mount_density x y z := by
  unfold TerrainGenerator.mount_density
  dsimp only
  split_ifs with h
  · exact le_of_lt h
  · exact le_refl 0

theorem hill_density_nonneg (g : TerrainGenerator) (x y z : ℤ) :
    0 ≤ g.hill_density x y z := by
  unfold TerrainGenerator.hill_density
  dsimp only
  split_ifs with h
  · exact le_of_lt h
  · exact le_refl 0

theorem pyInt_256_tenth : pyInt ((CHUNK_Y_SIZE : ℝ) * 0.10) = 25 := by
  have h : (CHUNK_Y_SIZE : ℝ) * 0.10 = 25.6 := by norm_num [CHUNK_Y_SIZE]
  rw [h, pyInt_of_nonneg (by norm_num)]
  rw [Int.floor_eq_iff]
  norm_num

/-- C2 (amended): the density formula as the code computes it.  It matches
the claim except for `flatten`: the divisor is `int(256 * 0.10) = 25`, not
`25.6`, and the division is Python-2 integer floor division. -/
theorem density_formula (g : TerrainGenerator) (x y z : ℤ) :
    g.density x y z =
      -(y : ℝ) +
        ((32 + 32 * clamp1 ((g.base_gen.fBm (0.004 * x) 0 (0.004 * z) + 1) / 2))
            * clamp1 (clamp1 ((Real.sqrt |g.river_gen.fBm (0.0008 * x) 0 (0.0008 * z)| - 0.1) * 7) + 0.25)
            * clamp1 (clamp1 (g.ocean_gen.fBm (0.0009 * x) 0 (0.0009 * z) * 8) + 0.25)
          + max 0 (g.mount_gen.fBm (x * 0.002) (y * 0.001) (z * 0.002)) * 1024
          + max 0 (g.hill_gen.fBm (x * 0.008) (y * 0.006) (z * 0.008) - 0.1) * 128)
          * clamp1 ((Int.fdiv (240 - y) 25 : ℤ) : ℝ) := by
  have hm := pos_part_eq_max (g.mount_gen.fBm ((x : ℝ) * 0.002) ((y : ℝ) * 0.001) ((z : ℝ) * 0.002))
  have hh := pos_part_eq_max (g.hill_gen.fBm ((x : ℝ) * 0.008) ((y : ℝ) * 0.006) ((z : ℝ) * 0.008) - 0.1)
  have h240 : (CHUNK_Y_SIZE : ℤ) - 16 - y = 240 - y := by norm_num [CHUNK_Y_SIZE]
  unfold TerrainGenerator.density TerrainGenerator.base_terrain TerrainGenerator.ocean_terrain
    TerrainGenerator.rive_terrain TerrainGenerator.mount_density TerrainGenerator.hill_density
  dsimp only
  rw [pyInt_256_tenth, hm, hh, h240]
  ring_nf

/-- The spec's density formula, verbatim (`density_spec` exists only for the
refinement comparison of claim C2): identical to the code except that
`flatten` divides by `chunk_height * 0.10 = 25.6` with real division, as the
claim states. -/
noncomputable def density_spec (g : TerrainGenerator) (x y z : ℤ) : ℝ :=
  let height := clamp1 ((g.base_gen.fBm (0.004 * x) 0 (0.004 * z) + 1) / 2)
  let ocean := clamp1 (g.ocean_gen.fBm (0.0009 * x) 0 (0.0009 * z) * 8)
  let river := clamp1 ((Real.sqrt |g.river_gen.fBm (0.0008 * x) 0 (0.0008 * z)| - 0.1) * 7)
  let mountains := max 0 (g.mount_gen.fBm (x * 0.002) (y * 0.001) (z * 0.002))
  let hills := max 0 (g.hill_gen.fBm (x * 0.008) (y * 0.006) (z * 0.008) - 0.1)
  let flatten := clamp1 (((CHUNK_Y_SIZE : ℝ) - 16 - y) / ((CHUNK_Y_SIZE : ℝ) * 0.10));
  -(y : ℝ) + ((32 + 32 * height) * clamp1 (river + 0.25) * clamp1 (ocean + 0.25)
    + mountains * 1024 + hills * 128) * flatten

theorem clamp1_zero : clamp1 0 = 0 := by
  unfold clamp1; norm_num

/-- At `(0, 220, 0)` the code's flatten is `clamp((240-220) // 25) = 0`, so
the whole terrain term vanishes and the density is exactly `-220`, for every
generator state. -/
theorem density_at_220 (g : TerrainGenerator) : g.density 0 220 0 = -220 := by
  unfold TerrainGenerator.density
  dsimp only
  rw [pyInt_256_tenth]
  have h20 : (CHUNK_Y_SIZE : ℤ) - 16 - 220 = 20 := by norm_num [CHUNK_Y_SIZE]
  rw [h20]
  have hf : Int.fdiv 20 25 = 0 := by decide
  rw [hf]
  norm_num [clamp1_zero]

theorem clamp1_quarter_le {r : ℝ} (h : 0 ≤ r) : 0.25 ≤ clamp1 (r + 0.25) := by
  unfold clamp1
  split_ifs <;> linarith

/-- Lower bound for the spec-side formula shape at `y = 220`: the clamps keep
the terrain factor at least `32 * (1/4) * (1/4) = 2` and the flatten taper is
`0.78125`, so the value exceeds `-219`. -/
theorem density_spec_lb (hgt R O M Hl : ℝ) (h1 : 0 ≤ hgt) (h2 : 0 ≤ R) (h3 : 0 ≤ O)
    (h4 : 0 ≤ M) (h5 : 0 ≤ Hl) :
    -219 ≤ -(220 : ℝ) + ((32 + 32 * hgt) * clamp1 (R + 0.25) * clamp1 (O + 0.25)
      + M * 1024 + Hl * 128) * 0.78125 := by
  have hcR := clamp1_quarter_le h2
  have hcO := clamp1_quarter_le h3
  have hq : (1 : ℝ) / 16 ≤ clamp1 (R + 0.25) * clamp1 (O + 0.25) := by nlinarith [hcR, hcO]
  have h32 : (32 : ℝ) ≤ 32 + 32 * hgt := by linarith
  have hprod : (32 : ℝ) * (1 / 16) ≤ (32 + 32 * hgt) * (clamp1 (R + 0.25) * clamp1 (O + 0.25)) :=
    mul_le_mul h32 hq (by norm_num) (by linarith)
  nlinarith [hprod, h4, h5]

/-- The spec's formula at `(0, 220, 0)` evaluates the flatten taper to
`20 / 25.6 = 0.78125` instead, so the value stays strictly above `-220`. -/
theorem density_spec_at_220 (g : TerrainGenerator) : -219 ≤ density_spec g 0 220 0 := by
  unfold density_spec
  dsimp only
  have hflat : clamp1 (((CHUNK_Y_SIZE : ℝ) - 16 - ((220 : ℤ) : ℝ)) / ((CHUNK_Y_SIZE : ℝ) * 0.10))
      = 0.78125 := by
    have h : ((CHUNK_Y_SIZE : ℝ) - 16 - ((220 : ℤ) : ℝ)) / ((CHUNK_Y_SIZE : ℝ) * 0.10)
        = 0.78125 := by norm_num [CHUNK_Y_SIZE]
    rw [h, clamp1_of_mem (by norm_num) (by norm_num)]
  rw [hflat]
  have h220 : -(((220 : ℤ) : ℝ)) = -(220 : ℝ) := by norm_num
  rw [h220]
  exact density_spec_lb _ _ _ _ _ (clamp1_nonneg _) (clamp1_nonneg _) (clamp1_nonneg _)
    (le_max_left _ _) (le_max_left _ _)

/-- A concrete generator instance (all `FastRandom` draws zero) for the
closed counterexample of claim C2. -/
noncomputable def cexGen : TerrainGenerator :=
  mkTerrainGenerator (fun _ => 0) (fun _ => 0) (fun _ => 0) (fun _ => 0)
    (fun _ => 0) (fun _ => 0) (fun _ => 0) (fun _ => 0)

/-- C2 (counterexample): at `(x, y, z) = (0, 220, 0)` the code's density is
`-220` but the spec's formula (divisor exactly `25.6`, real division) gives a
strictly larger value: the claimed equation is false. -/
theorem density_spec_counterexample : cexGen.density 0 220 0 ≠ density_spec cexGen 0 220 0 := by
  rw [density_at_220]
  intro h
  have h2 := density_spec_at_220 cexGen
  rw [← h] at h2
  norm_num at h2

/-- Minimum of the 8 corner samples of an interpolation cell (listed in the
argument order of the `tri_lerp` call in `tri_lerp_d_map`). -/
noncomputable def min8 (a b c d e f g h : ℝ) : ℝ :=
  min (min (min a b) (min c d)) (min (min e f) (min g h))

/-- Maximum of the 8 corner samples of an interpolation cell. -/
noncomputable def max8 (a b c d e f g h : ℝ) : ℝ :=
  max (max (max a b) (max c d)) (max (max e f) (max g h))

/-- A weighted interpolation between two values inside common bounds stays
inside those bounds (the weights `(x2-x)/(x2-x1)` and `(x-x1)/(x2-x1)` are
nonnegative and sum to 1 when `x1 ≤ x ≤ x2 < ∞`). -/
theorem lerp_bounds {t x1 x2 a b lo hi : ℝ} (h1 : x1 ≤ t) (h2 : t ≤ x2) (hx : x1 < x2)
    (ha : lo ≤ a ∧ a ≤ hi) (hb : lo ≤ b ∧ b ≤ hi) :
    lo ≤ TerrainGenerator.lerp t x1 x2 a b ∧ TerrainGenerator.lerp t x1 x2 a b ≤ hi := by
  have hd : 0 < x2 - x1 := sub_pos.2 hx
  have hw1 : 0 ≤ (x2 - t) / (x2 - x1) := div_nonneg (by linarith) hd.le
  have hw2 : 0 ≤ (t - x1) / (x2 - x1) := div_nonneg (by linarith) hd.le
  have hsum : (x2 - t) / (x2 - x1) + (t - x1) / (x2 - x1) = 1 := by
    field_simp
  have key : ∀ c : ℝ, (x2 - t) / (x2 - x1) * c + (t - x1) / (x2 - x1) * c = c := by
    intro c
    rw [← add_mul, hsum, one_mul]
  unfold TerrainGenerator.lerp
  constructor
  · have p1 := mul_le_mul_of_nonneg_left ha.1 hw1
    have p2 := mul_le_mul_of_nonneg_left hb.1 hw2
    have hk := key lo
    linarith
  · have p1 := mul_le_mul_of_nonneg_left ha.2 hw1
    have p2 := mul_le_mul_of_nonneg_left hb.2 hw2
    have hk := key hi
    linarith

theorem min8_le_max8 {v a b c d e f g h : ℝ}
    (hv : v = a ∨ v = b ∨ v = c ∨ v = d ∨ v = e ∨ v = f ∨ v = g ∨ v = h) :
    min8 a b c d e f g h ≤ v ∧ v ≤ max8 a b c d e f g h := by
  unfold min8 max8
  rcases hv with rfl | rfl | rfl | rfl | rfl | rfl | rfl | rfl <;>
    constructor <;> simp [min_le_iff, le_max_iff]

/-- `tri_lerp` with coordinates inside the cell stays between the minimum
and the maximum of its 8 corner values. -/
theorem tri_lerp_bounds {x y z x1 x2 y1 y2 z1 z2 : ℝ}
    (v000 v001 v010 v011 v100 v101 v110 v111 : ℝ)
    (hx1 : x1 ≤ x) (hx2 : x ≤ x2) (hx : x1 < x2)
    (hy1 : y1 ≤ y) (hy2 : y ≤ y2) (hy : y1 < y2)
    (hz1 : z1 ≤ z) (hz2 : z ≤ z2) (hz : z1 < z2) :
    min8 v000 v001 v010 v011 v100 v101 v110 v111 ≤
      TerrainGenerator.tri_lerp x y z v000 v001 v010 v011 v100 v101 v110 v111 x1 x2 y1 y2 z1 z2 ∧
    TerrainGenerator.tri_lerp x y z v000 v001 v010 v011 v100 v101 v110 v111 x1 x2 y1 y2 z1 z2 ≤
      max8 v000 v001 v010 v011 v100 v101 v110 v111 := by
  have c000 := min8_le_max8 (v := v000) (a := v000) (b := v001) (c := v010) (d := v011)
    (e := v100) (f := v101) (g := v110) (h := v111) (by tauto)
  have c001 := min8_le_max8 (v := v001) (a := v000) (b := v001) (c := v010) (d := v011)
    (e := v100) (f := v101) (g := v110) (h := v111) (by tauto)
  have c010 := min8_le_max8 (v := v010) (a := v000) (b := v001) (c := v010) (d := v011)
    (e := v100) (f := v101) (g := v110) (h := v111) (by tauto)
  have c011 := min8_le_max8 (v := v011) (a := v000) (b := v001) (c := v010) (d := v011)
    (e := v100) (f := v101) (g := v110) (h := v111) (by tauto)
  have c100 := min8_le_max8 (v := v100) (a := v000) (b := v001) (c := v010) (d := v011)
    (e := v100) (f := v101) (g := v110) (h := v111) (by tauto)
  have c101 := min8_le_max8 (v := v101) (a := v000) (b := v001) (c := v010) (d := v011)
    (e := v100) (f := v101) (g := v110) (h := v111) (by tauto)
  have c110 := min8_le_max8 (v := v110) (a := v000) (b := v001) (c := v010) (d := v011)
    (e := v100) (f := v101) (g := v110) (h := v111) (by tauto)
  have c111 := min8_le_max8 (v := v111) (a := v000) (b := v001) (c := v010) (d := v011)
    (e := v100) (f := v101) (g := v110) (h := v111) (by tauto)
  unfold TerrainGenerator.tri_lerp
  dsimp only
  have hx00 := lerp_bounds hx1 hx2 hx c000 c100
  have hx10 := lerp_bounds hx1 hx2 hx c010 c110
  have hx01 := lerp_bounds hx1 hx2 hx c001 c101
  have hx11 := lerp_bounds hx1 hx2 hx c011 c111
  have hu := lerp_bounds hy1 hy2 hy hx00 hx01
  have hv := lerp_bounds hy1 hy2 hy hx10 hx11
  exact lerp_bounds hz1 hz2 hz hu hv

/-- C3: after interpolation, (1) every sample-point entry of the density map
(all three indices multiples of the sample rate) still equals the direct
`density()` evaluation at the world coordinates of that grid point, and (2)
every other in-chunk entry is the x-then-y-then-z composition of linear
interpolations of the 8 corner samples of its 4x4x4 cell and lies between
their minimum and maximum. -/
theorem tri_lerp_d_map_correct (g : TerrainGenerator) (o : ℤ × ℤ × ℤ) (x y z : ℕ) :
    (x % SAMPLE_RATE_HOR = 0 → y % SAMPLE_RATE_VER = 0 → z % SAMPLE_RATE_HOR = 0 →
      TerrainGenerator.tri_lerp_d_map (g.d_map o) x y z = g.density (o.1 + x) y (o.2.2 + z)) ∧
    (¬(x % SAMPLE_RATE_HOR = 0 ∧ y % SAMPLE_RATE_VER = 0 ∧ z % SAMPLE_RATE_HOR = 0) →
      x < CHUNK_X_SIZE → y < CHUNK_Y_SIZE → z < CHUNK_Z_SIZE →
      min8 (g.d_map o (x / 4 * 4) (y / 4 * 4) (z / 4 * 4))
           (g.d_map o (x / 4 * 4) (4 + y / 4 * 4) (z / 4 * 4))
           (g.d_map o (x / 4 * 4) (y / 4 * 4) (z / 4 * 4 + 4))
           (g.d_map o (x / 4 * 4) (y / 4 * 4 + 4) (z / 4 * 4 + 4))
           (g.d_map o (4 + x / 4 * 4) (y / 4 * 4) (z / 4 * 4))
           (g.d_map o (4 + x / 4 * 4) (y / 4 * 4 + 4) (z / 4 * 4))
           (g.d_map o (4 + x / 4 * 4) (y / 4 * 4) (z / 4 * 4 + 4))
           (g.d_map o (4 + x / 4 * 4) (y / 4 * 4 + 4) (z / 4 * 4 + 4)) ≤
        TerrainGenerator.tri_lerp_d_map (g.d_map o) x y z ∧
      TerrainGenerator.tri_lerp_d_map (g.d_map o) x y z ≤
        max8 (g.d_map o (x / 4 * 4) (y / 4 * 4) (z / 4 * 4))
             (g.d_map o (x / 4 * 4) (4 + y / 4 * 4) (z / 4 * 4))
             (g.d_map o (x / 4 * 4) (y / 4 * 4) (z / 4 * 4 + 4))
             (g.d_map o (x / 4 * 4) (y / 4 * 4 + 4) (z / 4 * 4 + 4))
             (g.d_map o (4 + x / 4 * 4) (y / 4 * 4) (z / 4 * 4))
             (g.d_map o (4 + x / 4 * 4) (y / 4 * 4 + 4) (z / 4 * 4))
             (g.d_map o (4 + x / 4 * 4) (y / 4 * 4) (z / 4 * 4 + 4))
             (g.d_map o (4 + x / 4 * 4) (y / 4 * 4 + 4) (z / 4 * 4 + 4))) := by
  constructor
  · intro hx hy hz
    unfold TerrainGenerator.tri_lerp_d_map
    rw [if_neg]
    · rfl
    · intro hcon
      exact hcon.2.2.2 ⟨hx, hy, hz⟩
  · intro hmod hx hy hz
    unfold TerrainGenerator.tri_lerp_d_map
    rw [if_pos ⟨hx, hy, hz, hmod⟩]
    dsimp only
    have hx1 : ((x / SAMPLE_RATE_HOR * SAMPLE_RATE_HOR : ℕ) : ℝ) ≤ ((x : ℕ) : ℝ) := by
      have h : x / SAMPLE_RATE_HOR * SAMPLE_RATE_HOR ≤ x := Nat.div_mul_le_self x _
      exact_mod_cast h
    have hx2 : ((x : ℕ) : ℝ) ≤
        (SAMPLE_RATE_HOR : ℝ) + ((x / SAMPLE_RATE_HOR * SAMPLE_RATE_HOR : ℕ) : ℝ) := by
      have h : x ≤ SAMPLE_RATE_HOR + x / SAMPLE_RATE_HOR * SAMPLE_RATE_HOR := by
        simp only [SAMPLE_RATE_HOR]
        omega
      exact_mod_cast h
    have hxlt : ((x / SAMPLE_RATE_HOR * SAMPLE_RATE_HOR : ℕ) : ℝ) <
        (SAMPLE_RATE_HOR : ℝ) + ((x / SAMPLE_RATE_HOR * SAMPLE_RATE_HOR : ℕ) : ℝ) := by
      have h : x / SAMPLE_RATE_HOR * SAMPLE_RATE_HOR <
          SAMPLE_RATE_HOR + x / SAMPLE_RATE_HOR * SAMPLE_RATE_HOR := by
        simp only [SAMPLE_RATE_HOR]
        omega
      exact_mod_cast h
    have hy1 : ((y / SAMPLE_RATE_VER * SAMPLE_RATE_VER : ℕ) : ℝ) ≤ ((y : ℕ) : ℝ) := by
      have h : y / SAMPLE_RATE_VER * SAMPLE_RATE_VER ≤ y := Nat.div_mul_le_self y _
      exact_mod_cast h
    have hy2 : ((y : ℕ) : ℝ) ≤
        (SAMPLE_RATE_VER : ℝ) + ((y / SAMPLE_RATE_VER * SAMPLE_RATE_VER : ℕ) : ℝ) := by
      have h : y ≤ SAMPLE_RATE_VER + y / SAMPLE_RATE_VER * SAMPLE_RATE_VER := by
        simp only [SAMPLE_RATE_VER]
        omega
      exact_mod_cast h
    have hylt : ((y / SAMPLE_RATE_VER * SAMPLE_RATE_VER : ℕ) : ℝ) <
        (SAMPLE_RATE_VER : ℝ) + ((y / SAMPLE_RATE_VER * SAMPLE_RATE_VER : ℕ) : ℝ) := by
      have h : y / SAMPLE_RATE_VER * SAMPLE_RATE_VER <
          SAMPLE_RATE_VER + y / SAMPLE_RATE_VER * SAMPLE_RATE_VER := by
        simp only [SAMPLE_RATE_VER]
        omega
      exact_mod_cast h
    have hz1 : ((z / SAMPLE_RATE_HOR * SAMPLE_RATE_HOR : ℕ) : ℝ) ≤ ((z : ℕ) : ℝ) := by
      have h : z / SAMPLE_RATE_HOR * SAMPLE_RATE_HOR ≤ z := Nat.div_mul_le_self z _
      exact_mod_cast h
    have hz2 : ((z : ℕ) : ℝ) ≤
        ((z / SAMPLE_RATE_HOR * SAMPLE_RATE_HOR : ℕ) : ℝ) + (SAMPLE_RATE_HOR : ℝ) := by
      have h : z ≤ z / SAMPLE_RATE_HOR * SAMPLE_RATE_HOR + SAMPLE_RATE_HOR := by
        simp only [SAMPLE_RATE_HOR]
        omega
      exact_mod_cast h
    have hzlt : ((z / SAMPLE_RATE_HOR * SAMPLE_RATE_HOR : ℕ) : ℝ) <
        ((z / SAMPLE_RATE_HOR * SAMPLE_RATE_HOR : ℕ) : ℝ) + (SAMPLE_RATE_HOR : ℝ) := by
      have h : z / SAMPLE_RATE_HOR * SAMPLE_RATE_HOR <
          z / SAMPLE_RATE_HOR * SAMPLE_RATE_HOR + SAMPLE_RATE_HOR := by
        simp only [SAMPLE_RATE_HOR]
        omega
      exact_mod_cast h
    have hb := tri_lerp_bounds
      (g.d_map o (x / SAMPLE_RATE_HOR * SAMPLE_RATE_HOR) (y / SAMPLE_RATE_VER * SAMPLE_RATE_VER) (z / SAMPLE_RATE_HOR * SAMPLE_RATE_HOR))
      (g.d_map o (x / SAMPLE_RATE_HOR * SAMPLE_RATE_HOR) (SAMPLE_RATE_VER + y / SAMPLE_RATE_VER * SAMPLE_RATE_VER) (z / SAMPLE_RATE_HOR * SAMPLE_RATE_HOR))
      (g.d_map o (x / SAMPLE_RATE_HOR * SAMPLE_RATE_HOR) (y / SAMPLE_RATE_VER * SAMPLE_RATE_VER) (z / SAMPLE_RATE_HOR * SAMPLE_RATE_HOR + SAMPLE_RATE_HOR))
      (g.d_map o (x / SAMPLE_RATE_HOR * SAMPLE_RATE_HOR) (y / SAMPLE_RATE_VER * SAMPLE_RATE_VER + SAMPLE_RATE_VER) (z / SAMPLE_RATE_HOR * SAMPLE_RATE_HOR + SAMPLE_RATE_HOR))
      (g.d_map o (SAMPLE_RATE_HOR + x / SAMPLE_RATE_HOR * SAMPLE_RATE_HOR) (y / SAMPLE_RATE_VER * SAMPLE_RATE_VER) (z / SAMPLE_RATE_HOR * SAMPLE_RATE_HOR))
      (g.d_map o (SAMPLE_RATE_HOR + x / SAMPLE_RATE_HOR * SAMPLE_RATE_HOR) (y / SAMPLE_RATE_VER * SAMPLE_RATE_VER + SAMPLE_RATE_VER) (z / SAMPLE_RATE_HOR * SAMPLE_RATE_HOR))
      (g.d_map o (SAMPLE_RATE_HOR + x / SAMPLE_RATE_HOR * SAMPLE_RATE_HOR) (y / SAMPLE_RATE_VER * SAMPLE_RATE_VER) (z / SAMPLE_RATE_HOR * SAMPLE_RATE_HOR + SAMPLE_RATE_HOR))
      (g.d_map o (SAMPLE_RATE_HOR + x / SAMPLE_RATE_HOR * SAMPLE_RATE_HOR) (y / SAMPLE_RATE_VER * SAMPLE_RATE_VER + SAMPLE_RATE_VER) (z / SAMPLE_RATE_HOR * SAMPLE_RATE_HOR + SAMPLE_RATE_HOR))
      hx1 hx2 hxlt hy1 hy2 hylt hz1 hz2 hzlt
    simp only [SAMPLE_RATE_HOR, SAMPLE_RATE_VER] at hb ⊢
    exact hb

/-- C9: the biome assigned to a column depends only on the local column
indices, never on the chunk origin (the source passes the loop indices `x, z`
to `get_biome_type`), while the density samples of the chunk are taken at the
world coordinates `origin + local index` (with `y` unshifted). -/
theorem chunk_biome_local_coords (g : TerrainGenerator) (o o' : ℤ × ℤ × ℤ)
    (x z : ℕ) (y : ℕ) :
    g.columnBiome o x z = g.columnBiome o' x z ∧
      g.columnBiome o x z = g.biome_gen.get_biome_type (x : ℤ) (z : ℤ) ∧
      g.d_map o x y z = g.density (o.1 + x) y (o.2.2 + z) :=
  ⟨rfl, rfl, rfl⟩

/-- C3 (witness): at the sample point `(0,0,0)` the interpolated map equals
the direct density evaluation, and at the non-sample point `(1,0,0)` the
value lies between the min and max of its 8 cell corners. -/
theorem tri_lerp_d_map_correct_witness :
    (((0 : ℕ) % SAMPLE_RATE_HOR = 0 ∧ (0 : ℕ) % SAMPLE_RATE_VER = 0 ∧
        (0 : ℕ) % SAMPLE_RATE_HOR = 0) ∧
      TerrainGenerator.tri_lerp_d_map (cexGen.d_map (0, 0, 0)) 0 0 0 =
        cexGen.density (((0, 0, 0) : ℤ × ℤ × ℤ).1 + ((0 : ℕ) : ℤ)) ((0 : ℕ) : ℤ)
          (((0, 0, 0) : ℤ × ℤ × ℤ).2.2 + ((0 : ℕ) : ℤ))) ∧
    ((¬((1 : ℕ) % SAMPLE_RATE_HOR = 0 ∧ (0 : ℕ) % SAMPLE_RATE_VER = 0 ∧
        (0 : ℕ) % SAMPLE_RATE_HOR = 0) ∧
      (1 : ℕ) < CHUNK_X_SIZE ∧ (0 : ℕ) < CHUNK_Y_SIZE ∧ (0 : ℕ) < CHUNK_Z_SIZE) ∧
      (min8 (cexGen.d_map (0, 0, 0) (1 / 4 * 4) (0 / 4 * 4) (0 / 4 * 4))
            (cexGen.d_map (0, 0, 0) (1 / 4 * 4) (4 + 0 / 4 * 4) (0 / 4 * 4))
            (cexGen.d_map (0, 0, 0) (1 / 4 * 4) (0 / 4 * 4) (0 / 4 * 4 + 4))
            (cexGen.d_map (0, 0, 0) (1 / 4 * 4) (0 / 4 * 4 + 4) (0 / 4 * 4 + 4))
            (cexGen.d_map (0, 0, 0) (4 + 1 / 4 * 4) (0 / 4 * 4) (0 / 4 * 4))
            (cexGen.d_map (0, 0, 0) (4 + 1 / 4 * 4) (0 / 4 * 4 + 4) (0 / 4 * 4))
            (cexGen.d_map (0, 0, 0) (4 + 1 / 4 * 4) (0 / 4 * 4) (0 / 4 * 4 + 4))
            (cexGen.d_map (0, 0, 0) (4 + 1 / 4 * 4) (0 / 4 * 4 + 4) (0 / 4 * 4 + 4)) ≤
          TerrainGenerator.tri_lerp_d_map (cexGen.d_map (0, 0, 0)) 1 0 0 ∧
        TerrainGenerator.tri_lerp_d_map (cexGen.d_map (0, 0, 0)) 1 0 0 ≤
          max8 (cexGen.d_map (0, 0, 0) (1 / 4 * 4) (0 / 4 * 4) (0 / 4 * 4))
               (cexGen.d_map (0, 0, 0) (1 / 4 * 4) (4 + 0 / 4 * 4) (0 / 4 * 4))
               (cexGen.d_map (0, 0, 0) (1 / 4 * 4) (0 / 4 * 4) (0 / 4 * 4 + 4))
               (cexGen.d_map (0, 0, 0) (1 / 4 * 4) (0 / 4 * 4 + 4) (0 / 4 * 4 + 4))
               (cexGen.d_map (0, 0, 0) (4 + 1 / 4 * 4) (0 / 4 * 4) (0 / 4 * 4))
               (cexGen.d_map (0, 0, 0) (4 + 1 / 4 * 4) (0 / 4 * 4 + 4) (0 / 4 * 4))
               (cexGen.d_map (0, 0, 0) (4 + 1 / 4 * 4) (0 / 4 * 4) (0 / 4 * 4 + 4))
               (cexGen.d_map (0, 0, 0) (4 + 1 / 4 * 4) (0 / 4 * 4 + 4) (0 / 4 * 4 + 4)))) := by
  constructor
  · exact ⟨by decide, (tri_lerp_d_map_correct cexGen (0, 0, 0) 0 0 0).1 (by decide)
      (by decide) (by decide)⟩
  · exact ⟨⟨by decide, by decide, by decide, by decide⟩,
      (tri_lerp_d_map_correct cexGen (0, 0, 0) 1 0 0).2 (by decide) (by decide)
        (by decide) (by decide)⟩

/-! ## Claims about the biome classifier and the permutation table -/

/-- C4: for all inputs, `get_humidity` and `get_temperature` are in `[0, 1]`,
the classification is total (one of the five biomes), and the biome is chosen
by the first matching rule, in source order, over `temp = get_temperature`
and `humidity = get_humidity * temp`. -/
theorem get_biome_type_spec (bg : BiomeGenerator) (x z : ℤ) :
    (0 ≤ bg.get_humidity x z ∧ bg.get_humidity x z ≤ 1) ∧
    (0 ≤ bg.get_temperature x z ∧ bg.get_temperature x z ≤ 1) ∧
    (bg.get_biome_type x z = Biome.desert ∨ bg.get_biome_type x z = Biome.plains ∨
      bg.get_biome_type x z = Biome.snow ∨ bg.get_biome_type x z = Biome.mountains ∨
      bg.get_biome_type x z = Biome.forest) ∧
    (bg.get_temperature x z ≥ 0.5 ∧ bg.get_humidity x z * bg.get_temperature x z < 0.3 →
      bg.get_biome_type x z = Biome.desert) ∧
    (¬(bg.get_temperature x z ≥ 0.5 ∧ bg.get_humidity x z * bg.get_temperature x z < 0.3) →
      0.3 ≤ bg.get_humidity x z * bg.get_temperature x z ∧
        bg.get_humidity x z * bg.get_temperature x z ≤ 0.6 ∧ bg.get_temperature x z ≥ 0.5 →
      bg.get_biome_type x z = Biome.plains) ∧
    (¬(bg.get_temperature x z ≥ 0.5 ∧ bg.get_humidity x z * bg.get_temperature x z < 0.3) →
      ¬(0.3 ≤ bg.get_humidity x z * bg.get_temperature x z ∧
        bg.get_humidity x z * bg.get_temperature x z ≤ 0.6 ∧ bg.get_temperature x z ≥ 0.5) →
      bg.get_temperature x z ≤ 0.3 ∧ bg.get_humidity x z * bg.get_temperature x z > 0.5 →
      bg.get_biome_type x z = Biome.snow) ∧
    (¬(bg.get_temperature x z ≥ 0.5 ∧ bg.get_humidity x z * bg.get_temperature x z < 0.3) →
      ¬(0.3 ≤ bg.get_humidity x z * bg.get_temperature x z ∧
        bg.get_humidity x z * bg.get_temperature x z ≤ 0.6 ∧ bg.get_temperature x z ≥ 0.5) →
      ¬(bg.get_temperature x z ≤ 0.3 ∧ bg.get_humidity x z * bg.get_temperature x z > 0.5) →
      0.2 ≤ bg.get_humidity x z * bg.get_temperature x z ∧
        bg.get_humidity x z * bg.get_temperature x z ≤ 0.6 ∧ bg.get_temperature x z < 0.5 →
      bg.get_biome_type x z = Biome.mountains) ∧
    (¬(bg.get_temperature x z ≥ 0.5 ∧ bg.get_humidity x z * bg.get_temperature x z < 0.3) →
      ¬(0.3 ≤ bg.get_humidity x z * bg.get_temperature x z ∧
        bg.get_humidity x z * bg.get_temperature x z ≤ 0.6 ∧ bg.get_temperature x z ≥ 0.5) →
      ¬(bg.get_temperature x z ≤ 0.3 ∧ bg.get_humidity x z * bg.get_temperature x z > 0.5) →
      ¬(0.2 ≤ bg.get_humidity x z * bg.get_temperature x z ∧
        bg.get_humidity x z * bg.get_temperature x z ≤ 0.6 ∧ bg.get_temperature x z < 0.5) →
      bg.get_biome_type x z = Biome.forest) := by
  refine ⟨?_, ?_, ?_, ?_, ?_, ?_, ?_, ?_⟩
  · unfold BiomeGenerator.get_humidity
    exact ⟨clamp1_nonneg _, clamp1_le_one _⟩
  · unfold BiomeGenerator.get_temperature
    exact ⟨clamp1_nonneg _, clamp1_le_one _⟩
  all_goals
    unfold BiomeGenerator.get_biome_type
    dsimp only
    split_ifs
    all_goals simp_all

/-- A concrete biome generator (all `FastRandom` draws zero) for the
witness of claim C4. -/
noncomputable def bgW : BiomeGenerator := mkBiomeGenerator (fun _ => 0) (fun _ => 0)

theorem get_temperature_at_origin (bg : BiomeGenerator) : bg.get_temperature 0 0 = 1 / 2 := by
  unfold BiomeGenerator.get_temperature
  norm_num [fBm_zero, clamp1]

theorem get_humidity_at_origin (bg : BiomeGenerator) : bg.get_humidity 0 0 = 1 / 2 := by
  unfold BiomeGenerator.get_humidity
  norm_num [fBm_zero, clamp1]

/-- C4 (witness): at the origin with the zero-draw generator, temperature is
`1/2` and humidity `1/4`, the first rule fires, and the classifier returns
Desert. -/
theorem get_biome_type_spec_witness :
    (bgW.get_temperature 0 0 ≥ 0.5 ∧ bgW.get_humidity 0 0 * bgW.get_temperature 0 0 < 0.3) ∧
    bgW.get_biome_type 0 0 = Biome.desert := by
  have hc : bgW.get_temperature 0 0 ≥ 0.5 ∧
      bgW.get_humidity 0 0 * bgW.get_temperature 0 0 < 0.3 := by
    rw [get_temperature_at_origin, get_humidity_at_origin]
    norm_num
  exact ⟨hc, (get_biome_type_spec bgW 0 0).2.2.2.1 hc⟩

theorem swapEntries_apply (t : ℕ → ℕ) (i j k : ℕ) :
    swapEntries t i j k = t (Equiv.swap i j k) := by
  unfold swapEntries
  rcases eq_or_ne k j with rfl | hkj
  · simp [Equiv.swap_apply_right]
  · rcases eq_or_ne k i with rfl | hki
    · simp [Function.update_apply, hkj, Equiv.swap_apply_left]
    · simp [Function.update_apply, hkj, hki, Equiv.swap_apply_of_ne_of_ne hki hkj]

theorem swap_bijOn {i j n : ℕ} (hi : i < n) (hj : j < n) :
    Set.BijOn (fun k => Equiv.swap i j k) (Set.Iio n) (Set.Iio n) := by
  have hmap : Set.MapsTo (fun k => Equiv.swap i j k) (Set.Iio n) (Set.Iio n) := by
    intro k hk
    simp only [Set.mem_Iio] at hk ⊢
    rw [Equiv.swap_apply_def]
    split_ifs
    · exact hj
    · exact hi
    · exact hk
  refine ⟨hmap, fun a _ b _ h => (Equiv.swap i j).injective h, ?_⟩
  intro m hm
  refine ⟨Equiv.swap i j m, hmap hm, ?_⟩
  simp

theorem noiseTbl_bijOn (draws : ℕ → ℕ) :
    Set.BijOn (noiseTbl draws) (Set.Iio 256) (Set.Iio 256) := by
  unfold noiseTbl
  suffices h : ∀ (l : List ℕ) (t : ℕ → ℕ), (∀ i ∈ l, i < 256) →
      Set.BijOn t (Set.Iio 256) (Set.Iio 256) →
      Set.BijOn (l.foldl (fun t i => swapEntries t i (draws i % 256)) t)
        (Set.Iio 256) (Set.Iio 256) by
    refine h (List.range 256) (fun i => i) (fun i hi => List.mem_range.1 hi) ?_
    exact Set.bijOn_id _
  intro l
  induction l with
  | nil => exact fun t _ ht => ht
  | cons a l ih =>
    intro t hl ht
    refine ih _ (fun i hi => hl i (List.mem_cons_of_mem a hi)) ?_
    dsimp only
    have ha : a < 256 := hl a (List.mem_cons_self a l)
    have hj : draws a % 256 < 256 := Nat.mod_lt _ (by norm_num)
    have hcomp : swapEntries t a (draws a % 256) =
        t ∘ (fun k => Equiv.swap a (draws a % 256) k) := by
      funext k
      exact swapEntries_apply t a (draws a % 256) k
    rw [hcomp]
    exact Set.BijOn.comp ht (swap_bijOn ha hj)

/-- C5: for every seed (modelled by the RNG draw stream), the first 256
entries of the freshly built `perm` table are a bijection of `[0, 255]`, the
upper half duplicates the lower half (`perm[i + 256] = perm[i]`), and an
`fBm` call leaves the table unchanged (its only state effect is on the weight
cache; `noise` is embedded as a pure function because the source's `noise`
performs no assignment at all). -/
theorem perm_table_spec (draws : ℕ → ℕ) :
    Set.BijOn (mkPerlin draws).perm (Set.Iio 256) (Set.Iio 256) ∧
    (∀ i, i < 256 → (mkPerlin draws).perm (i + 256) = (mkPerlin draws).perm i) ∧
    (∀ p : PerlinNoise, p.fBmState.perm = p.perm) := by
  refine ⟨?_, ?_, ?_⟩
  · refine Set.BijOn.congr (noiseTbl_bijOn draws) ?_
    intro i hi
    simp only [Set.mem_Iio] at hi
    simp only [mkPerlin]
    rw [Nat.mod_eq_of_lt hi]
  · intro i _
    simp only [mkPerlin]
    rw [Nat.add_mod_right]
  · intro p
    unfold PerlinNoise.fBmState
    split_ifs <;> rfl

/-- C5 (witness): the duplication equation at `i = 0` for the zero-draw
table. -/
theorem perm_table_spec_witness :
    (0 : ℕ) < 256 ∧ (mkPerlin (fun _ => 0)).perm (0 + 256) = (mkPerlin (fun _ => 0)).perm 0 :=
  ⟨by norm_num, (perm_table_spec (fun _ => 0)).2.1 0 (by norm_num)⟩

/-! ## TerrainGeneratorSimple (sector heightmap generator)

The sector generator leans on several external collaborators that are not
part of `terrain.py`: `random.Random`, `SimplexNoise.noise2` (from the
`perlin` module), the world/storage container, the vegetation callback, the
`globals` module constants and `VEGETATION_BLOCKS` (from `nature`).  Each is
modelled from the specification's description of its interface (spec
sections 3 and 6), as noted below. -/

/-- A world-space block position. -/
abbrev Pos : Type := ℤ × ℤ × ℤ

/-- One storage effect of `generate_sector`: an `init_block` write or a
`generate_vegetation` callback invocation. -/
inductive Event where
  | initBlock : Pos → Block → Event
  | vegetation : Pos → Veg → Event
  deriving DecidableEq, Repr

/-- The position an event targets. -/
def Event.posOf : Event → Pos
  | Event.initBlock p _ => p
  | Event.vegetation p _ => p

/-- Modelled from the spec: the deterministic seeded RNG (`random.Random`),
an external interface "supporting integer draw, uniform-real draw, weighted
choice from a sequence, and reseeding from a composite key (seed +
coordinate tuple)".  `nats`/`reals` are the current draw streams, `k` the
position in them, and `seedTab` gives the streams obtained by reseeding with
the sector's block-origin (the generator's own seed string is fixed for the
generator's lifetime, so it is folded into `seedTab`). -/
structure Rand where
  nats : ℕ → ℕ
  reals : ℕ → ℝ
  k : ℕ
  seedTab : Pos → (ℕ → ℕ) × (ℕ → ℝ)

def Rand.next (r : Rand) : Rand := { r with k := r.k + 1 }

/-- `rand.choice(seq)`: a uniform draw used as an index into the sequence.
The default is never produced for the nonempty literal sequences the source
passes. -/
def Rand.choice {α : Type} [Inhabited α] (r : Rand) (l : List α) : α × Rand :=
  (l.getD (r.nats r.k % l.length) default, r.next)

/-- `rand.random()`: a uniform real draw. -/
def Rand.random (r : Rand) : ℝ × Rand := (r.reals r.k, r.next)

/-- `rand.seed(seed + "(bx,by,bz)")`: restart the streams from the composite
key. -/
def Rand.seed (r : Rand) (c : Pos) : Rand :=
  { nats := (r.seedTab c).1, reals := (r.seedTab c).2, k := 0, seedTab := r.seedTab }

/-- Modelled from the spec: the process-wide state and constants of the
`globals` module read or written by `generate_sector` (the module itself is
not under src/).  The trigger and chance constants are opaque values. -/
structure Globals where
  BIOME_BLOCK_COUNT : ℤ
  BIOME_BLOCK_TRIGGER : ℤ
  BIOME_NEGATIVE_BLOCK_TRIGGER : ℤ
  TERRAIN_CHOICE : Theme
  TREE_CHANCE : ℝ
  WILDFOOD_CHANCE : ℝ
  GRASS_CHANCE : ℝ

/-- Modelled from the spec: the world/storage container, exposing
set-block-at-coordinate (`init_block`), the generated-sector cache
(`world.sectors`), block lookup (`world[pos]`), and the sector to
block-origin transform (`savingsystem.sector_to_blockpos`). -/
structure World where
  blocks : Pos → Option Block
  sectors : Pos → Option (List Pos)
  sector_to_blockpos : Pos → Pos

/-- Apply one event to storage.  `init_block` is modelled from the spec as
set-block-at-coordinate; the vegetation callback builds collaborator-defined
structures, so only the invocation itself is recorded. -/
def applyEvent (w : World) : Event → World
  | Event.initBlock p b => { w with blocks := Function.update w.blocks p (some b) }
  | Event.vegetation _ _ => w

def applyEvents (w : World) (l : List Event) : World := l.foldl applyEvent w

/-- `lowlevel_ores`: 75 stone + 2 diamond ore + 2 sapphire ore. -/
def lowlevel_ores : List Block :=
  List.replicate 75 Block.stone ++ List.replicate 2 Block.diamondore ++
    List.replicate 2 Block.sapphireore

/-- `midlevel_ores`: 80 stone + 2 ruby + 4 coal + 5 gravel + 5 iron + 2 lapis. -/
def midlevel_ores : List Block :=
  List.replicate 80 Block.stone ++ List.replicate 2 Block.rubyore ++
    List.replicate 4 Block.coalore ++ List.replicate 5 Block.gravel ++
    List.replicate 5 Block.ironore ++ List.replicate 2 Block.lapisore

/-- `highlevel_ores`: 85 stone + 5 gravel + 3 coal + 5 quartz. -/
def highlevel_ores : List Block :=
  List.replicate 85 Block.stone ++ List.replicate 5 Block.gravel ++
    List.replicate 3 Block.coalore ++ List.replicate 5 Block.quartz

/-- `underwater_blocks`: 70 sand + 20 gravel + 10 clay. -/
def underwater_blocks : List Block :=
  List.replicate 70 Block.sand ++ List.replicate 20 Block.gravel ++
    List.replicate 10 Block.clay

def world_type_trees : List Veg := [Veg.oakTree, Veg.birchTree, Veg.jungleTree]

def world_type_plants : List Veg := [Veg.pumpkin, Veg.potato, Veg.carrot, Veg.waterMelon]

/-- The initial `world_type_grass` tuple of `__init__`. -/
def default_world_type_grass : List Veg :=
  [Veg.yFlowers, Veg.fern, Veg.rose, Veg.wildGrass0, Veg.wildGrass1, Veg.cactus,
   Veg.wildGrass2, Veg.tallCactus, Veg.wildGrass3, Veg.wildGrass4, Veg.wildGrass5,
   Veg.wildGrass6, Veg.wildGrass7, Veg.desertGrass]

def island_type_grass : List Veg := [Veg.yFlowers, Veg.rose, Veg.fern]

/-- `_clamp` of `TerrainGeneratorSimple`: the upper clamp returns `0.9999`
"so int rounds down properly". -/
noncomputable def clampS (a : ℝ) : ℝ := if a > 1 then 0.9999 else if a < 0 then 0 else a

/-- The state of a `TerrainGeneratorSimple` object: the seeded RNG, the
simplex noise function (`SimplexNoise(...).noise2`, modelled from the spec as
an opaque smooth noise source from the external `perlin` module), the
per-theme mutable fields, the mutable grass tuple, the leakable-vegetation
set (`VEGETATION_BLOCKS` from the external `nature` module, modelled from
the spec as an opaque block set), and the fBm weights list. -/
structure TerrainGeneratorSimple where
  rand : Rand
  noise2 : ℝ → ℝ → ℝ
  height_range : ℤ
  height_base : ℤ
  island_shore : ℤ
  water_level : ℤ
  zoom_level : ℝ
  world_type_grass : List Veg
  autogenerated_blocks : List Block
  weights : List ℝ

/-- `TerrainGeneratorSimple.__init__`: the same `PERSISTENCE`/`H`/`OCTAVES`
constants as `PerlinNoise`, the default theme fields, and the weights list
`[PERSISTENCE ** (-H * n) for n in range(OCTAVES)]`. -/
noncomputable def mkTerrainGeneratorSimple (r : Rand) (noise2 : ℝ → ℝ → ℝ)
    (vegetation_blocks : List Block) : TerrainGeneratorSimple :=
  { rand := r
    noise2 := noise2
    height_range := 32
    height_base := 32
    island_shore := 38
    water_level := 36
    zoom_level := 0.002
    world_type_grass := default_world_type_grass
    autogenerated_blocks := vegetation_blocks
    weights := (List.range 9).map (fun n => Real.rpow PERSISTENCE (-(Hc * n))) }

/-- `get_height(x, z)`: multi-octave 2D noise at `zoom_level` frequency,
rescaled into `[height_base, height_base + height_range)`; Python's `int()`
truncates the float result. -/
noncomputable def TerrainGeneratorSimple.get_height (g : TerrainGeneratorSimple)
    (x z : ℤ) : ℤ :=
  let acc := g.weights.foldl
    (fun (acc : ℝ × ℝ × ℝ) weight =>
      (acc.1 + g.noise2 acc.2.1 acc.2.2 * weight,
       acc.2.1 * PERSISTENCE, acc.2.2 * PERSISTENCE))
    (0, (x : ℝ) * g.zoom_level, (z : ℝ) * g.zoom_level)
  pyInt ((g.height_base : ℝ) + clampS ((acc.1 + 1.0) / 2.0) * (g.height_range : ℝ))

/-- The clamped column height of the surface pass: `y = get_height(x, z)`
then `if y > bytop: y = bytop`. -/
noncomputable def TerrainGeneratorSimple.surfY (g : TerrainGeneratorSimple)
    (bytop x z : ℤ) : ℤ :=
  let y := g.get_height x z
  if y > bytop then bytop else y

/-- The candidate themes of the re-roll: `('plains', 'desert', 'mountains',
'snow')` — "island" is excluded. -/
def new_biomes : List Theme := [Theme.plains, Theme.desert, Theme.mountains, Theme.snow]

/-- The theme re-roll at the top of `generate_sector` (terrain.py lines
466-471): when the block counter is at or beyond a trigger, reset it to 0 and
draw a fresh `TERRAIN_CHOICE` from `new_biomes`.  (The two `print` calls have
no state effect.) -/
def biomeReroll (g : TerrainGeneratorSimple) (glob : Globals) : Globals × Rand :=
  if glob.BIOME_BLOCK_COUNT ≥ glob.BIOME_BLOCK_TRIGGER ∨
      glob.BIOME_BLOCK_COUNT ≤ glob.BIOME_NEGATIVE_BLOCK_TRIGGER then
    let c := g.rand.choice new_biomes
    ({ glob with BIOME_BLOCK_COUNT := 0, TERRAIN_CHOICE := c.1 }, c.2)
  else (glob, g.rand)

/-- The per-theme field assignments of `generate_sector` (lines 473-509):
every theme overwrites `height_range`, `height_base`, `island_shore`,
`water_level`, `zoom_level` and the local `main_block`; "island" also swaps
`world_type_grass` for the beach-safe list. -/
def applyTheme (g : TerrainGeneratorSimple) (t : Theme) (_main_block : Block) :
    TerrainGeneratorSimple × Block :=
  match t with
  | Theme.plains =>
      ({ g with height_range := 32, height_base := 32, island_shore := 0,
                water_level := 0, zoom_level := 0.002 }, Block.grass)
  | Theme.snow =>
      ({ g with height_range := 32, height_base := 32, island_shore := 34,
                water_level := 33, zoom_level := 0.002 }, Block.snowgrass)
  | Theme.desert =>
      ({ g with height_range := 32, height_base := 32, island_shore := 32,
                water_level := 0, zoom_level := 0.002 }, Block.sand)
  | Theme.island =>
      ({ g with world_type_grass := island_type_grass, height_range := 32,
                height_base := 32, island_shore := 38, water_level := 36,
                zoom_level := 0.002 }, Block.grass)
  | Theme.mountains =>
      ({ g with height_range := 32, height_base := 32, island_shore := 18,
                water_level := 20, zoom_level := 0.001 }, Block.stone)

/-- The idempotence guard (lines 511-515): a sector already recorded in
`world.sectors` is skipped as soon as one of its recorded positions holds a
block outside the auto-generated set.  Positions recorded in a sector list
always hold a block in the world container (the source would raise a
`KeyError` otherwise); a dangling position conservatively counts as not
auto-generated. -/
def sectorAlreadyGenerated (ag : List Block) (w : World) (sector : Pos) : Bool :=
  match w.sectors sector with
  | some ps => ps.any fun p =>
      match w.blocks p with
      | some b => decide (b ∉ ag)
      | none => true
  | none => false

/-- The ore pool for one depth band (lines 622-627). -/
def oreBlockset (yy : ℤ) : List Block :=
  if yy ≥ 32 then highlevel_ores else if yy > 8 then midlevel_ores else lowlevel_ores

/-- The `for yy in xrange(by, y)` ore/filler loop of one column (lines
620-628). -/
def oreFill (x z b_y ytop : ℤ) (r : Rand) : List Event × Rand :=
  (List.range ((ytop - b_y).toNat)).foldl
    (fun (acc : List Event × Rand) i =>
      let yy := b_y + (i : ℤ)
      let c := acc.2.choice (oreBlockset yy)
      (acc.1 ++ [Event.initBlock (x, yy, z) c.1], c.2))
    ([], r)

/-- The trailing `if by == 0: init_block((x, 0, z), bed_block)` of one
column (lines 629-630). -/
def bedEvents (b_y x z : ℤ) : List Event :=
  if b_y = 0 then [Event.initBlock (x, 0, z) Block.bed] else []

/-- The non-desert below-water writes of one column (lines 571-578): top
block at `water_level` (ice for snow, water otherwise), a weighted
underwater block at `water_level - 2`, dirt at `water_level - 3`. -/
noncomputable def waterEvents (g : TerrainGeneratorSimple) (TC : Theme)
    (x z : ℤ) (r : Rand) : List Event × Rand :=
  if TC ≠ Theme.desert then
    let top := if TC = Theme.snow then Block.ice else Block.water
    let c := r.choice underwater_blocks
    ([Event.initBlock (x, g.water_level, z) top,
      Event.initBlock (x, g.water_level - 2, z) c.1,
      Event.initBlock (x, g.water_level - 3, z) Block.dirt], c.2)
  else ([], r)

/-- The desert dry-beach stamp of a below-water column (lines 579-584). -/
def desertEvents (TC : Theme) (x z y : ℤ) : List Event :=
  if TC = Theme.desert then
    [Event.initBlock (x, y + 1, z) Block.sand,
     Event.initBlock (x, y, z) Block.sand,
     Event.initBlock (x, y - 1, z) Block.sand,
     Event.initBlock (x, y - 2, z) Block.sandstone,
     Event.initBlock (x, y - 3, z) Block.sandstone]
  else []

/-- The mountains-theme surface banding (lines 562-568): three sequential
range tests reassigning `main_block`. -/
def mountainMainBlock (TC : Theme) (y : ℤ) (main_block : Block) : Block :=
  if TC = Theme.mountains then
    let mbA := if 0 ≤ y ∧ y ≤ 35 then Block.grass else main_block
    let mbB := if 36 ≤ y ∧ y ≤ 54 then Block.stone else mbA
    if 55 ≤ y then Block.snow else mbB
  else main_block

/-- The island-theme shore override of an above-water column (lines
587-591): sand at or below `island_shore`, grass above. -/
def islandMainBlock (TC : Theme) (island_shore y : ℤ) (mb1 : Block) : Block :=
  if TC = Theme.island then
    if y > island_shore then Block.grass else Block.sand
  else mb1

/-- The chance-weighted vegetation stamp of an above-water column (lines
594-604): one uniform draw compared against the three thresholds, then a
choice from the selected pool placed one voxel above the surface. -/
noncomputable def vegetEvents (g : TerrainGeneratorSimple)
    (TREE_CHANCE WILDFOOD_CHANCE GRASS_CHANCE : ℝ) (x z y : ℤ) (r : Rand) :
    List Event × Rand :=
  let rv := r.random
  let veget_blocks : Option (List Veg) :=
    if rv.1 < TREE_CHANCE then some world_type_trees
    else if rv.1 < WILDFOOD_CHANCE then some world_type_plants
    else if rv.1 < GRASS_CHANCE then some g.world_type_grass
    else none
  match veget_blocks with
  | some l => let c := rv.2.choice l; ([Event.vegetation (x, y + 1, z) c.1], c.2)
  | none => ([], rv.2)

/-- The 3-deep subsurface band matching the surface material family (lines
606-612). -/
def undergroundBlocks (mb2 : Block) : List Block :=
  if mb2 = Block.sand then [Block.sand, Block.sand, Block.sandstone]
  else if mb2 = Block.stone then [Block.stone, Block.stone, Block.stone]
  else [Block.dirt, Block.dirt, Block.dirt]

/-- `for d, block in enumerate(underground_blocks, start=1):
init_block((x, y - d, z), block)` (lines 614-616). -/
def undergroundEvents (x z y : ℤ) (mb2 : Block) : List Event :=
  (List.range (undergroundBlocks mb2).length).map fun (d : ℕ) =>
    Event.initBlock (x, y - ((d : ℤ) + 1), z) ((undergroundBlocks mb2).getD d Block.dirt)

/-- The body of the per-column loop of `generate_sector` (lines 551-630) for
one `(x, z)`: surface pass (water band / surface block with vegetation and a
3-deep subsurface band / nothing when the clamped height hits the sector
top), then the ore filler, then bedrock when the sector sits at `by = 0`.
Returns the emitted events (in program order), the possibly mutated
`main_block`, and the RNG. -/
noncomputable def colBody (g : TerrainGeneratorSimple) (TC : Theme)
    (TREE_CHANCE WILDFOOD_CHANCE GRASS_CHANCE : ℝ) (b_y bytop x z : ℤ)
    (main_block : Block) (r : Rand) : List Event × Block × Rand :=
  if b_y < g.height_base then
    let f := oreFill x z b_y g.height_base r
    (f.1 ++ bedEvents b_y x z, main_block, f.2)
  else
    let y := g.surfY bytop x z
    let mb1 := mountainMainBlock TC y main_block
    if y ≤ g.water_level then
      let w1 := waterEvents g TC x z r
      let f := oreFill x z b_y (y - 3) w1.2
      (w1.1 ++ desertEvents TC x z y ++ f.1 ++ bedEvents b_y x z, mb1, f.2)
    else if y < bytop then
      let mb2 := islandMainBlock TC g.island_shore y mb1
      let v := vegetEvents g TREE_CHANCE WILDFOOD_CHANCE GRASS_CHANCE x z y r
      let f := oreFill x z b_y (y - 3) v.2
      (Event.initBlock (x, y, z) mb2 :: v.1 ++ undergroundEvents x z y mb2 ++ f.1 ++
        bedEvents b_y x z, mb2, f.2)
    else
      let f := oreFill x z b_y y r
      (f.1 ++ bedEvents b_y x z, mb1, f.2)

/-- The 64 column coordinates of a sector, in the source's
`for x ... for z ...` order. -/
def sectorCols (b_x b_z : ℤ) : List (ℤ × ℤ) :=
  (List.range 8).flatMap fun (i : ℕ) =>
    (List.range 8).map fun (j : ℕ) => (b_x + (i : ℤ), b_z + (j : ℤ))

/-- One step of the column fold: run the next column with the threaded
`main_block` and RNG and append its events. -/
noncomputable def colsStep (g : TerrainGeneratorSimple) (TC : Theme)
    (tc wc gc : ℝ) (b_y bytop : ℤ) (acc : List Event × Block × Rand) (c : ℤ × ℤ) :
    List Event × Block × Rand :=
  let s := colBody g TC tc wc gc b_y bytop c.1 c.2 acc.2.1 acc.2.2
  (acc.1 ++ s.1, s.2)

/-- The double column loop over one sector. -/
noncomputable def colsFold (g : TerrainGeneratorSimple) (TC : Theme)
    (tc wc gc : ℝ) (b_y bytop : ℤ) (cols : List (ℤ × ℤ)) (main_block : Block)
    (r : Rand) : List Event × Block × Rand :=
  cols.foldl (colsStep g TC tc wc gc b_y bytop) ([], main_block, r)

/-- `generate_sector(sector)`: theme re-roll, per-theme field assignment,
idempotence guard, sector pre-caching, reseeding from the sector origin, and
the column loop.  Returns the updated generator, globals, world, and the
ordered list of storage effects. -/
noncomputable def TerrainGeneratorSimple.generate_sector (g : TerrainGeneratorSimple)
    (glob : Globals) (w : World) (sector : Pos) :
    TerrainGeneratorSimple × Globals × World × List Event :=
  let main_block := Block.grass
  let reroll := biomeReroll g glob
  let glob1 := reroll.1
  let ga := applyTheme { g with rand := reroll.2 } glob1.TERRAIN_CHOICE main_block
  let g1 := ga.1
  if sectorAlreadyGenerated g1.autogenerated_blocks w sector then
    (g1, glob1, w, [])
  else
    let w1 := { w with sectors := Function.update w.sectors sector (some []) }
    let bp := w.sector_to_blockpos sector
    if 0 ≤ bp.2.1 ∧ bp.2.1 < g1.height_base + g1.height_range then
      let g2 := { g1 with rand := g1.rand.seed bp }
      let res := colsFold g2 glob1.TERRAIN_CHOICE glob1.TREE_CHANCE
        glob1.WILDFOOD_CHANCE glob1.GRASS_CHANCE bp.2.1 (bp.2.1 + 8)
        (sectorCols bp.1 bp.2.2) ga.2 g2.rand
      ({ g2 with rand := res.2.2 }, glob1, applyEvents w1 res.1, res.1)
    else
      (g1, glob1, w1, [])

/-! ## Claims about the sector generator -/

theorem applyTheme_autogen (g : TerrainGeneratorSimple) (t : Theme) (mb : Block) :
    (applyTheme g t mb).1.autogenerated_blocks = g.autogenerated_blocks := by
  cases t <;> rfl

theorem applyTheme_height_base (g : TerrainGeneratorSimple) (t : Theme) (mb : Block) :
    (applyTheme g t mb).1.height_base = 32 := by
  cases t <;> rfl

theorem Rand.choice_mem {α : Type} [Inhabited α] (r : Rand) (l : List α) (hl : l ≠ []) :
    (r.choice l).1 ∈ l := by
  unfold Rand.choice
  dsimp only
  have hlen : 0 < l.length := List.length_pos.2 hl
  have h : r.nats r.k % l.length < l.length := Nat.mod_lt _ hlen
  rw [List.getD_eq_getElem l _ h]
  exact List.getElem_mem h

/-- C6: a call on a sector already recorded in `world.sectors`, one of whose
recorded positions holds a block outside the auto-generated vegetation set,
returns before writing: the storage is untouched (no `init_block`, no
`generate_vegetation`, and `world.sectors[sector]` is not replaced), so a
second call on such a sector is a no-op on storage. -/
theorem generate_sector_idempotent (g : TerrainGeneratorSimple) (glob : Globals)
    (w : World) (sector : Pos) (ps : List Pos) (p : Pos) (b : Block)
    (hs : w.sectors sector = some ps) (hp : p ∈ ps) (hb : w.blocks p = some b)
    (hag : b ∉ g.autogenerated_blocks) :
    (g.generate_sector glob w sector).2.2.1 = w ∧
    (g.generate_sector glob w sector).2.2.2 = ([] : List Event) := by
  have hA : sectorAlreadyGenerated g.autogenerated_blocks w sector = true := by
    unfold sectorAlreadyGenerated
    rw [hs]
    dsimp only
    rw [List.any_eq_true]
    refine ⟨p, hp, ?_⟩
    rw [hb]
    simpa using hag
  have hG : sectorAlreadyGenerated (applyTheme { g with rand := (biomeReroll g glob).2 }
      (biomeReroll g glob).1.TERRAIN_CHOICE Block.grass).1.autogenerated_blocks w sector
      = true := by
    rw [applyTheme_autogen]
    exact hA
  unfold TerrainGeneratorSimple.generate_sector
  dsimp only
  rw [hG]
  simp

theorem generate_sector_globals_eq (g : TerrainGeneratorSimple) (glob : Globals)
    (w : World) (sector : Pos) :
    (g.generate_sector glob w sector).2.1 = (biomeReroll g glob).1 := by
  unfold TerrainGeneratorSimple.generate_sector
  dsimp only
  split_ifs <;> rfl

/-- C7: when the block counter is at or beyond the upper trigger (or at or
below the negative trigger) at entry, the call draws the new
`TERRAIN_CHOICE` from exactly {plains, desert, mountains, snow} — never
island — and resets the counter to 0.  (`init_block` is modelled from the
spec as a pure storage write; the counter is only assigned by the re-roll
during the call.) -/
theorem generate_sector_reroll (g : TerrainGeneratorSimple) (glob : Globals)
    (w : World) (sector : Pos)
    (htrig : glob.BIOME_BLOCK_COUNT ≥ glob.BIOME_BLOCK_TRIGGER ∨
      glob.BIOME_BLOCK_COUNT ≤ glob.BIOME_NEGATIVE_BLOCK_TRIGGER) :
    ((g.generate_sector glob w sector).2.1.TERRAIN_CHOICE = Theme.plains ∨
      (g.generate_sector glob w sector).2.1.TERRAIN_CHOICE = Theme.desert ∨
      (g.generate_sector glob w sector).2.1.TERRAIN_CHOICE = Theme.mountains ∨
      (g.generate_sector glob w sector).2.1.TERRAIN_CHOICE = Theme.snow) ∧
    (g.generate_sector glob w sector).2.1.TERRAIN_CHOICE ≠ Theme.island ∧
    (g.generate_sector glob w sector).2.1.BIOME_BLOCK_COUNT = 0 := by
  rw [generate_sector_globals_eq]
  unfold biomeReroll
  rw [if_pos htrig]
  dsimp only
  have hmem := Rand.choice_mem g.rand new_biomes (by simp [new_biomes])
  simp only [new_biomes, List.mem_cons, List.not_mem_nil, or_false] at hmem
  refine ⟨?_, ?_, rfl⟩
  · simp only [new_biomes]
    exact hmem
  · simp only [new_biomes]
    rcases hmem with h | h | h | h <;> rw [h] <;> simp

/-- Concrete RNG for witnesses: constant-zero streams. -/
noncomputable def rW : Rand :=
  { nats := fun _ => 0, reals := fun _ => 0, k := 0
    seedTab := fun _ => (fun _ => 0, fun _ => 0) }

/-- Concrete sector generator state for witnesses: constant-one simplex
noise, a single weight `-1` (so the heightmap sits at `height_base`), and an
empty leakable-vegetation set. -/
noncomputable def sgW : TerrainGeneratorSimple :=
  { rand := rW, noise2 := fun _ _ => 1, height_range := 32, height_base := 32
    island_shore := 38, water_level := 36, zoom_level := 0.002
    world_type_grass := default_world_type_grass, autogenerated_blocks := []
    weights := [-1] }

/-- Concrete globals at the upper trigger. -/
noncomputable def globTrig : Globals :=
  { BIOME_BLOCK_COUNT := 215, BIOME_BLOCK_TRIGGER := 215
    BIOME_NEGATIVE_BLOCK_TRIGGER := -215, TERRAIN_CHOICE := Theme.island
    TREE_CHANCE := 0, WILDFOOD_CHANCE := 0, GRASS_CHANCE := 0 }

/-- Concrete globals away from both triggers, snow theme. -/
noncomputable def globSnow : Globals :=
  { BIOME_BLOCK_COUNT := 0, BIOME_BLOCK_TRIGGER := 215
    BIOME_NEGATIVE_BLOCK_TRIGGER := -215, TERRAIN_CHOICE := Theme.snow
    TREE_CHANCE := 0, WILDFOOD_CHANCE := 0, GRASS_CHANCE := 0 }

/-- Concrete world: an empty storage whose sector origin transform lands at
`by = 32`. -/
noncomputable def wEmpty : World :=
  { blocks := fun _ => none, sectors := fun _ => none
    sector_to_blockpos := fun _ => (0, 32, 0) }

/-- Concrete world holding a stone block recorded in sector `(0,0,0)`. -/
noncomputable def wStone : World :=
  { blocks := fun p => if p = ((5 : ℤ), (5 : ℤ), (5 : ℤ)) then some Block.stone else none
    sectors := fun s => if s = ((0 : ℤ), (0 : ℤ), (0 : ℤ))
      then some [((5 : ℤ), (5 : ℤ), (5 : ℤ))] else none
    sector_to_blockpos := fun _ => (0, 32, 0) }

/-- C7 (witness): with the counter at the upper trigger, the call re-rolls
into one of the four themes, avoids island, and zeroes the counter. -/
theorem generate_sector_reroll_witness :
    (globTrig.BIOME_BLOCK_COUNT ≥ globTrig.BIOME_BLOCK_TRIGGER ∨
      globTrig.BIOME_BLOCK_COUNT ≤ globTrig.BIOME_NEGATIVE_BLOCK_TRIGGER) ∧
    (((sgW.generate_sector globTrig wEmpty (0, 0, 0)).2.1.TERRAIN_CHOICE = Theme.plains ∨
      (sgW.generate_sector globTrig wEmpty (0, 0, 0)).2.1.TERRAIN_CHOICE = Theme.desert ∨
      (sgW.generate_sector globTrig wEmpty (0, 0, 0)).2.1.TERRAIN_CHOICE = Theme.mountains ∨
      (sgW.generate_sector globTrig wEmpty (0, 0, 0)).2.1.TERRAIN_CHOICE = Theme.snow) ∧
      (sgW.generate_sector globTrig wEmpty (0, 0, 0)).2.1.TERRAIN_CHOICE ≠ Theme.island ∧
      (sgW.generate_sector globTrig wEmpty (0, 0, 0)).2.1.BIOME_BLOCK_COUNT = 0) :=
  ⟨Or.inl (le_refl _),
    generate_sector_reroll sgW globTrig wEmpty (0, 0, 0) (Or.inl (le_refl _))⟩

/-- C6 (witness): a second call on the sector recording a stone block leaves
the world untouched and emits no storage effect. -/
theorem generate_sector_idempotent_witness :
    (wStone.sectors (0, 0, 0) = some [((5 : ℤ), (5 : ℤ), (5 : ℤ))] ∧
      ((5 : ℤ), (5 : ℤ), (5 : ℤ)) ∈ [((5 : ℤ), (5 : ℤ), (5 : ℤ))] ∧
      wStone.blocks (5, 5, 5) = some Block.stone ∧
      Block.stone ∉ sgW.autogenerated_blocks) ∧
    ((sgW.generate_sector globSnow wStone (0, 0, 0)).2.2.1 = wStone ∧
      (sgW.generate_sector globSnow wStone (0, 0, 0)).2.2.2 = ([] : List Event)) := by
  have h1 : wStone.sectors (0, 0, 0) = some [((5 : ℤ), (5 : ℤ), (5 : ℤ))] := by
    simp [wStone]
  have h2 : ((5 : ℤ), (5 : ℤ), (5 : ℤ)) ∈ [((5 : ℤ), (5 : ℤ), (5 : ℤ))] := by simp
  have h3 : wStone.blocks (5, 5, 5) = some Block.stone := by simp [wStone]
  have h4 : Block.stone ∉ sgW.autogenerated_blocks := by simp [sgW]
  exact ⟨⟨h1, h2, h3, h4⟩,
    generate_sector_idempotent sgW globSnow wStone (0, 0, 0) _ _ _ h1 h2 h3 h4⟩

/-- C10: the theme re-roll runs before the already-generated guard.  When
the counter is at a trigger at entry AND the sector would be skipped by the
guard, the call still assigns the freshly drawn `TERRAIN_CHOICE`, zeroes the
counter, and overwrites the generator's per-theme fields (the returned
generator is exactly the theme-assigned one), while writing nothing to
storage. -/
theorem reroll_before_guard (g : TerrainGeneratorSimple) (glob : Globals)
    (w : World) (sector : Pos) (ps : List Pos) (p : Pos) (b : Block)
    (htrig : glob.BIOME_BLOCK_COUNT ≥ glob.BIOME_BLOCK_TRIGGER ∨
      glob.BIOME_BLOCK_COUNT ≤ glob.BIOME_NEGATIVE_BLOCK_TRIGGER)
    (hs : w.sectors sector = some ps) (hp : p ∈ ps) (hb : w.blocks p = some b)
    (hag : b ∉ g.autogenerated_blocks) :
    (g.generate_sector glob w sector).2.1 =
      { glob with BIOME_BLOCK_COUNT := 0,
                  TERRAIN_CHOICE := (g.rand.choice new_biomes).1 } ∧
    (g.generate_sector glob w sector).1 =
      (applyTheme { g with rand := (g.rand.choice new_biomes).2 }
        (g.rand.choice new_biomes).1 Block.grass).1 ∧
    (g.generate_sector glob w sector).2.2.1 = w ∧
    (g.generate_sector glob w sector).2.2.2 = ([] : List Event) := by
  have hre : biomeReroll g glob =
      ({ glob with BIOME_BLOCK_COUNT := 0, TERRAIN_CHOICE := (g.rand.choice new_biomes).1 },
        (g.rand.choice new_biomes).2) := by
    unfold biomeReroll
    rw [if_pos htrig]
  have hA : sectorAlreadyGenerated g.autogenerated_blocks w sector = true := by
    unfold sectorAlreadyGenerated
    rw [hs]
    dsimp only
    rw [List.any_eq_true]
    refine ⟨p, hp, ?_⟩
    rw [hb]
    simpa using hag
  have hG : sectorAlreadyGenerated (applyTheme { g with rand := (biomeReroll g glob).2 }
      (biomeReroll g glob).1.TERRAIN_CHOICE Block.grass).1.autogenerated_blocks w sector
      = true := by
    rw [applyTheme_autogen]
    exact hA
  unfold TerrainGeneratorSimple.generate_sector
  dsimp only
  rw [hG]
  rw [hre]
  simp

/-- C10 (witness): counter at the trigger AND an already-generated sector:
the re-roll still lands, the theme fields are overwritten, and storage is
untouched. -/
theorem reroll_before_guard_witness :
    ((globTrig.BIOME_BLOCK_COUNT ≥ globTrig.BIOME_BLOCK_TRIGGER ∨
        globTrig.BIOME_BLOCK_COUNT ≤ globTrig.BIOME_NEGATIVE_BLOCK_TRIGGER) ∧
      wStone.sectors (0, 0, 0) = some [((5 : ℤ), (5 : ℤ), (5 : ℤ))] ∧
      ((5 : ℤ), (5 : ℤ), (5 : ℤ)) ∈ [((5 : ℤ), (5 : ℤ), (5 : ℤ))] ∧
      wStone.blocks (5, 5, 5) = some Block.stone ∧
      Block.stone ∉ sgW.autogenerated_blocks) ∧
    ((sgW.generate_sector globTrig wStone (0, 0, 0)).2.1 =
        { globTrig with BIOME_BLOCK_COUNT := 0,
                        TERRAIN_CHOICE := (sgW.rand.choice new_biomes).1 } ∧
      (sgW.generate_sector globTrig wStone (0, 0, 0)).1 =
        (applyTheme { sgW with rand := (sgW.rand.choice new_biomes).2 }
          (sgW.rand.choice new_biomes).1 Block.grass).1 ∧
      (sgW.generate_sector globTrig wStone (0, 0, 0)).2.2.1 = wStone ∧
      (sgW.generate_sector globTrig wStone (0, 0, 0)).2.2.2 = ([] : List Event)) := by
  have h0 : globTrig.BIOME_BLOCK_COUNT ≥ globTrig.BIOME_BLOCK_TRIGGER ∨
      globTrig.BIOME_BLOCK_COUNT ≤ globTrig.BIOME_NEGATIVE_BLOCK_TRIGGER :=
    Or.inl (le_refl _)
  have h1 : wStone.sectors (0, 0, 0) = some [((5 : ℤ), (5 : ℤ), (5 : ℤ))] := by
    simp [wStone]
  have h2 : ((5 : ℤ), (5 : ℤ), (5 : ℤ)) ∈ [((5 : ℤ), (5 : ℤ), (5 : ℤ))] := by simp
  have h3 : wStone.blocks (5, 5, 5) = some Block.stone := by simp [wStone]
  have h4 : Block.stone ∉ sgW.autogenerated_blocks := by simp [sgW]
  exact ⟨⟨h0, h1, h2, h3, h4⟩,
    reroll_before_guard sgW globTrig wStone (0, 0, 0) _ _ _ h0 h1 h2 h3 h4⟩

/-! ### Event inventory lemmas for the column body (claim C8) -/

theorem oreFill_events (x z b_y ytop : ℤ) (r : Rand) :
    ∀ e ∈ (oreFill x z b_y ytop r).1,
      ∃ yy bk, e = Event.initBlock (x, yy, z) bk ∧ b_y ≤ yy ∧ yy < ytop := by
  unfold oreFill
  have key : ∀ (l : List ℕ) (acc : List Event × Rand),
      (∀ i ∈ l, (i : ℤ) < ytop - b_y) →
      (∀ e ∈ acc.1, ∃ yy bk, e = Event.initBlock (x, yy, z) bk ∧ b_y ≤ yy ∧ yy < ytop) →
      ∀ e ∈ (l.foldl (fun (acc : List Event × Rand) i =>
          let yy := b_y + (i : ℤ)
          let c := acc.2.choice (oreBlockset yy)
          (acc.1 ++ [Event.initBlock (x, yy, z) c.1], c.2)) acc).1,
        ∃ yy bk, e = Event.initBlock (x, yy, z) bk ∧ b_y ≤ yy ∧ yy < ytop := by
    intro l
    induction l with
    | nil => exact fun acc _ hacc => hacc
    | cons a l ih =>
      intro acc hl hacc
      refine ih _ (fun i hi => hl i (List.mem_cons_of_mem a hi)) ?_
      intro e he
      dsimp only at he
      rw [List.mem_append] at he
      rcases he with he | he
      · exact hacc e he
      · rw [List.mem_singleton] at he
        subst he
        have ha := hl a (List.mem_cons_self a l)
        exact ⟨b_y + (a : ℤ), _, rfl, by omega, by omega⟩
  intro e he
  refine key _ _ (fun i hi => ?_) (fun e h => absurd h (List.not_mem_nil e)) e he
  have h1 := List.mem_range.1 hi
  omega

theorem bedEvents_events (b_y x z : ℤ) :
    ∀ e ∈ bedEvents b_y x z, e = Event.initBlock (x, 0, z) Block.bed ∧ b_y = 0 := by
  unfold bedEvents
  split_ifs with h
  · intro e he
    rw [List.mem_singleton] at he
    exact ⟨he, h⟩
  · intro e he
    exact absurd he (List.not_mem_nil e)

theorem bedEvents_nil {b_y : ℤ} (h : b_y ≠ 0) (x z : ℤ) : bedEvents b_y x z = [] := by
  unfold bedEvents
  rw [if_neg h]

theorem waterEvents_eq (g : TerrainGeneratorSimple) {TC : Theme} (x z : ℤ) (r : Rand)
    (h : TC ≠ Theme.desert) :
    (waterEvents g TC x z r).1 =
      [Event.initBlock (x, g.water_level, z)
         (if TC = Theme.snow then Block.ice else Block.water),
       Event.initBlock (x, g.water_level - 2, z) (r.choice underwater_blocks).1,
       Event.initBlock (x, g.water_level - 3, z) Block.dirt] := by
  unfold waterEvents
  rw [if_pos h]

theorem waterEvents_events (g : TerrainGeneratorSimple) (TC : Theme) (x z : ℤ) (r : Rand) :
    ∀ e ∈ (waterEvents g TC x z r).1,
      ∃ y' bk, e = Event.initBlock (x, y', z) bk ∧
        (y' = g.water_level ∨ y' = g.water_level - 2 ∨ y' = g.water_level - 3) := by
  intro e he
  unfold waterEvents at he
  split_ifs at he with h
  all_goals dsimp only at he
  all_goals simp only [List.mem_cons, List.not_mem_nil, or_false] at he
  all_goals rcases he with rfl | rfl | rfl
  all_goals first
    | exact ⟨g.water_level, _, rfl, Or.inl rfl⟩
    | exact ⟨g.water_level - 2, _, rfl, Or.inr (Or.inl rfl)⟩
    | exact ⟨g.water_level - 3, _, rfl, Or.inr (Or.inr rfl)⟩

theorem desertEvents_nil {TC : Theme} (h : TC ≠ Theme.desert) (x z y : ℤ) :
    desertEvents TC x z y = [] := by
  unfold desertEvents
  rw [if_neg h]

theorem vegetEvents_events (g : TerrainGeneratorSimple) (tc wc gc : ℝ) (x z y : ℤ)
    (r : Rand) :
    ∀ e ∈ (vegetEvents g tc wc gc x z y r).1,
      ∃ v, e = Event.vegetation (x, y + 1, z) v := by
  unfold vegetEvents
  dsimp only
  split_ifs with h1 h2 h3
  all_goals intro e he
  all_goals dsimp only at he
  all_goals first
    | exact absurd he (List.not_mem_nil e)
    | (rw [List.mem_singleton] at he; exact ⟨_, he⟩)

theorem undergroundEvents_events (x z y : ℤ) (mb2 : Block) :
    ∀ e ∈ undergroundEvents x z y mb2,
      ∃ y' bk, e = Event.initBlock (x, y', z) bk ∧ y - 3 ≤ y' ∧ y' < y := by
  unfold undergroundEvents
  intro e he
  rw [List.mem_map] at he
  obtain ⟨d, hd, rfl⟩ := he
  rw [List.mem_range] at hd
  have hlen : (undergroundBlocks mb2).length = 3 := by
    unfold undergroundBlocks
    split_ifs <;> rfl
  rw [hlen] at hd
  exact ⟨y - ((d : ℤ) + 1), _, rfl, by omega, by omega⟩

/-- Every event a column body emits targets that column's `(x, z)`. -/
theorem colBody_pos (g : TerrainGeneratorSimple) (TC : Theme) (tc wc gc : ℝ)
    (b_y bytop x z : ℤ) (mb : Block) (r : Rand) :
    ∀ e ∈ (colBody g TC tc wc gc b_y bytop x z mb r).1,
      e.posOf.1 = x ∧ e.posOf.2.2 = z := by
  have hore : ∀ (a b : ℤ) (rr : Rand), ∀ e ∈ (oreFill x z a b rr).1,
      e.posOf.1 = x ∧ e.posOf.2.2 = z := by
    intro a b rr e he
    obtain ⟨yy, bk, rfl, -, -⟩ := oreFill_events x z a b rr e he
    exact ⟨rfl, rfl⟩
  have hbed : ∀ e ∈ bedEvents b_y x z, e.posOf.1 = x ∧ e.posOf.2.2 = z := by
    intro e he
    obtain ⟨rfl, -⟩ := bedEvents_events b_y x z e he
    exact ⟨rfl, rfl⟩
  have hdesert : ∀ (y : ℤ), ∀ e ∈ desertEvents TC x z y,
      e.posOf.1 = x ∧ e.posOf.2.2 = z := by
    intro y e he
    unfold desertEvents at he
    split_ifs at he
    · simp only [List.mem_cons, List.not_mem_nil, or_false] at he
      rcases he with rfl | rfl | rfl | rfl | rfl
      all_goals exact ⟨rfl, rfl⟩
    · exact absurd he (List.not_mem_nil e)
  intro e he
  unfold colBody at he
  dsimp only at he
  split_ifs at he with h1 h2 h3
  · dsimp only at he
    rw [List.mem_append] at he
    rcases he with he | he
    · exact hore _ _ _ e he
    · exact hbed e he
  · dsimp only at he
    rw [List.mem_append, List.mem_append, List.mem_append] at he
    rcases he with ((he | he) | he) | he
    · obtain ⟨y', bk, rfl, -⟩ := waterEvents_events g TC x z r e he
      exact ⟨rfl, rfl⟩
    · exact hdesert _ e he
    · exact hore _ _ _ e he
    · exact hbed e he
  · dsimp only at he
    rw [List.mem_append, List.mem_append, List.mem_append, List.mem_cons] at he
    rcases he with (((rfl | he) | he) | he) | he
    · exact ⟨rfl, rfl⟩
    · obtain ⟨v, rfl⟩ := vegetEvents_events g tc wc gc x z _ r e he
      exact ⟨rfl, rfl⟩
    · obtain ⟨y', bk, rfl, -, -⟩ := undergroundEvents_events x z _ _ e he
      exact ⟨rfl, rfl⟩
    · exact hore _ _ _ e he
    · exact hbed e he
  · dsimp only at he
    rw [List.mem_append] at he
    rcases he with he | he
    · exact hore _ _ _ e he
    · exact hbed e he

/-- The below-water surface pass of one column: the three claimed writes are
emitted, and every `init_block` of the column targets `water_level`,
`water_level - 2`, `water_level - 3`, or strictly below `water_level - 3` —
never `water_level - 1`. -/
theorem colBody_below_water (g : TerrainGeneratorSimple) (TC : Theme) (tc wc gc : ℝ)
    (b_y bytop x z : ℤ) (mb : Block) (r : Rand)
    (hhb : ¬ b_y < g.height_base) (hb0 : b_y ≠ 0)
    (hwl : g.surfY bytop x z ≤ g.water_level) (hdes : TC ≠ Theme.desert) :
    (Event.initBlock (x, g.water_level, z)
        (if TC = Theme.snow then Block.ice else Block.water)
        ∈ (colBody g TC tc wc gc b_y bytop x z mb r).1) ∧
    (∃ bk, bk ∈ underwater_blocks ∧
      Event.initBlock (x, g.water_level - 2, z) bk
        ∈ (colBody g TC tc wc gc b_y bytop x z mb r).1) ∧
    (Event.initBlock (x, g.water_level - 3, z) Block.dirt
        ∈ (colBody g TC tc wc gc b_y bytop x z mb r).1) ∧
    (∀ y' bk, Event.initBlock (x, y', z) bk
        ∈ (colBody g TC tc wc gc b_y bytop x z mb r).1 →
      y' = g.water_level ∨ y' = g.water_level - 2 ∨ y' = g.water_level - 3 ∨
        y' < g.water_level - 3) := by
  have hform : (colBody g TC tc wc gc b_y bytop x z mb r).1 =
      (waterEvents g TC x z r).1 ++
        (oreFill x z b_y (g.surfY bytop x z - 3) (waterEvents g TC x z r).2).1 := by
    unfold colBody
    rw [if_neg hhb]
    dsimp only
    rw [if_pos hwl]
    rw [desertEvents_nil hdes, bedEvents_nil hb0]
    simp
  rw [hform]
  have hchoice : (r.choice underwater_blocks).1 ∈ underwater_blocks :=
    Rand.choice_mem r underwater_blocks (by decide)
  refine ⟨?_, ⟨_, hchoice, ?_⟩, ?_, ?_⟩
  · refine List.mem_append_left _ ?_
    rw [waterEvents_eq g x z r hdes]
    simp
  · refine List.mem_append_left _ ?_
    rw [waterEvents_eq g x z r hdes]
    simp
  · refine List.mem_append_left _ ?_
    rw [waterEvents_eq g x z r hdes]
    simp
  · intro y' bk hmem
    rw [List.mem_append] at hmem
    rcases hmem with hmem | hmem
    · obtain ⟨y'', bk'', heq, hy⟩ := waterEvents_events g TC x z r _ hmem
      simp only [Event.initBlock.injEq, Prod.mk.injEq, true_and, and_true] at heq
      rcases hy with h | h | h
      · exact Or.inl (by omega)
      · exact Or.inr (Or.inl (by omega))
      · exact Or.inr (Or.inr (Or.inl (by omega)))
    · obtain ⟨yy, bk', heq, hge, hlt⟩ := oreFill_events x z b_y _ _ _ hmem
      simp only [Event.initBlock.injEq, Prod.mk.injEq, true_and, and_true] at heq
      refine Or.inr (Or.inr (Or.inr ?_))
      omega

/-! ### Column fold lemmas (claim C8) -/

theorem colsFold_acc_mem (g : TerrainGeneratorSimple) (TC : Theme) (tc wc gc : ℝ)
    (b_y bytop : ℤ) :
    ∀ (cols : List (ℤ × ℤ)) (acc : List Event × Block × Rand), ∀ e ∈ acc.1,
      e ∈ (cols.foldl (colsStep g TC tc wc gc b_y bytop) acc).1 := by
  intro cols
  induction cols with
  | nil => exact fun acc e he => he
  | cons c cols ih =>
    intro acc e he
    have h' : e ∈ (colsStep g TC tc wc gc b_y bytop acc c).1 := by
      unfold colsStep
      dsimp only
      exact List.mem_append_left _ he
    exact ih (colsStep g TC tc wc gc b_y bytop acc c) e h'

theorem colsFold_col_events (g : TerrainGeneratorSimple) (TC : Theme) (tc wc gc : ℝ)
    (b_y bytop : ℤ) :
    ∀ (cols : List (ℤ × ℤ)) (acc : List Event × Block × Rand) (c : ℤ × ℤ), c ∈ cols →
      ∃ mb' r', ∀ e ∈ (colBody g TC tc wc gc b_y bytop c.1 c.2 mb' r').1,
        e ∈ (cols.foldl (colsStep g TC tc wc gc b_y bytop) acc).1 := by
  intro cols
  induction cols with
  | nil => exact fun acc c hc => absurd hc (List.not_mem_nil c)
  | cons a cols ih =>
    intro acc c hc
    rcases List.mem_cons.1 hc with rfl | hc
    · refine ⟨acc.2.1, acc.2.2, fun e he => ?_⟩
      have h' : e ∈ (colsStep g TC tc wc gc b_y bytop acc c).1 := by
        unfold colsStep
        dsimp only
        exact List.mem_append_right _ he
      exact colsFold_acc_mem g TC tc wc gc b_y bytop cols _ e h'
    · exact ih (colsStep g TC tc wc gc b_y bytop acc a) c hc

theorem colsFold_cover (g : TerrainGeneratorSimple) (TC : Theme) (tc wc gc : ℝ)
    (b_y bytop : ℤ) :
    ∀ (cols : List (ℤ × ℤ)) (acc : List Event × Block × Rand),
      ∀ e ∈ (cols.foldl (colsStep g TC tc wc gc b_y bytop) acc).1,
        e ∈ acc.1 ∨ ∃ c ∈ cols, ∃ mb' r',
          e ∈ (colBody g TC tc wc gc b_y bytop c.1 c.2 mb' r').1 := by
  intro cols
  induction cols with
  | nil => exact fun acc e he => Or.inl he
  | cons a cols ih =>
    intro acc e he
    rcases ih _ e he with h | ⟨c, hc, mb', r', hm⟩
    · unfold colsStep at h
      dsimp only at h
      rcases List.mem_append.1 h with h | h
      · exact Or.inl h
      · exact Or.inr ⟨a, List.mem_cons_self a cols, acc.2.1, acc.2.2, h⟩
    · exact Or.inr ⟨c, List.mem_cons_of_mem a hc, mb', r', hm⟩

theorem mem_sectorCols {b_x b_z x z : ℤ} (hx1 : b_x ≤ x) (hx2 : x < b_x + 8)
    (hz1 : b_z ≤ z) (hz2 : z < b_z + 8) : (x, z) ∈ sectorCols b_x b_z := by
  have h1 : b_x + ((x - b_x).toNat : ℤ) = x := by omega
  have h2 : b_z + ((z - b_z).toNat : ℤ) = z := by omega
  unfold sectorCols
  have hm1 : (x - b_x).toNat < 8 := by omega
  have hm2 : (z - b_z).toNat < 8 := by omega
  refine List.mem_flatMap.2 ⟨(x - b_x).toNat, List.mem_range.2 hm1, ?_⟩
  refine List.mem_map.2 ⟨(z - b_z).toNat, List.mem_range.2 hm2, ?_⟩
  rw [Prod.mk.injEq]
  exact ⟨h1, h2⟩

/-- In the non-skipped, in-range case, the events of `generate_sector` are
exactly the column fold's events with the seeded RNG. -/
theorem generate_sector_events (g : TerrainGeneratorSimple) (glob : Globals)
    (w : World) (sector : Pos) (glob1 : Globals) (r1 : Rand)
    (g1 : TerrainGeneratorSimple) (mb1 : Block)
    (hre : biomeReroll g glob = (glob1, r1))
    (hga : applyTheme { g with rand := r1 } glob1.TERRAIN_CHOICE Block.grass = (g1, mb1))
    (hguard : sectorAlreadyGenerated g1.autogenerated_blocks w sector = false)
    (hrange : 0 ≤ (w.sector_to_blockpos sector).2.1 ∧
      (w.sector_to_blockpos sector).2.1 < g1.height_base + g1.height_range) :
    (g.generate_sector glob w sector).2.2.2 =
      (colsFold { g1 with rand := g1.rand.seed (w.sector_to_blockpos sector) }
        glob1.TERRAIN_CHOICE glob1.TREE_CHANCE glob1.WILDFOOD_CHANCE glob1.GRASS_CHANCE
        (w.sector_to_blockpos sector).2.1 ((w.sector_to_blockpos sector).2.1 + 8)
        (sectorCols (w.sector_to_blockpos sector).1 (w.sector_to_blockpos sector).2.2)
        mb1 (g1.rand.seed (w.sector_to_blockpos sector))).1 := by
  unfold TerrainGeneratorSimple.generate_sector
  dsimp only
  rw [hre]
  dsimp only
  rw [hga]
  dsimp only
  rw [hguard]
  simp only [Bool.false_eq_true, if_false]
  rw [if_pos hrange]

/-- C8: in a generated (guard-passing, in-range) sector under a non-desert
theme, every below-water column (clamped height at or below `water_level`)
receives the top block at `y = water_level` (ice for snow, water otherwise),
a weighted underwater block at `water_level - 2` and dirt at
`water_level - 3`, and no `init_block` of the whole call targets
`y = water_level - 1` in that column. -/
theorem generate_sector_below_water (g : TerrainGeneratorSimple) (glob : Globals)
    (w : World) (sector : Pos) (glob1 : Globals) (r1 : Rand)
    (g1 : TerrainGeneratorSimple) (mb1 : Block) (x z : ℤ)
    (hre : biomeReroll g glob = (glob1, r1))
    (hga : applyTheme { g with rand := r1 } glob1.TERRAIN_CHOICE Block.grass = (g1, mb1))
    (hguard : sectorAlreadyGenerated g1.autogenerated_blocks w sector = false)
    (hrange : 0 ≤ (w.sector_to_blockpos sector).2.1 ∧
      (w.sector_to_blockpos sector).2.1 < g1.height_base + g1.height_range)
    (hsurf : g1.height_base ≤ (w.sector_to_blockpos sector).2.1)
    (hx : (w.sector_to_blockpos sector).1 ≤ x ∧ x < (w.sector_to_blockpos sector).1 + 8)
    (hz : (w.sector_to_blockpos sector).2.2 ≤ z ∧ z < (w.sector_to_blockpos sector).2.2 + 8)
    (hdes : glob1.TERRAIN_CHOICE ≠ Theme.desert)
    (hwl : g1.surfY ((w.sector_to_blockpos sector).2.1 + 8) x z ≤ g1.water_level) :
    (Event.initBlock (x, g1.water_level, z)
        (if glob1.TERRAIN_CHOICE = Theme.snow then Block.ice else Block.water)
        ∈ (g.generate_sector glob w sector).2.2.2) ∧
    (∃ bk, bk ∈ underwater_blocks ∧
      Event.initBlock (x, g1.water_level - 2, z) bk
        ∈ (g.generate_sector glob w sector).2.2.2) ∧
    (Event.initBlock (x, g1.water_level - 3, z) Block.dirt
        ∈ (g.generate_sector glob w sector).2.2.2) ∧
    (∀ y' bk, Event.initBlock (x, y', z) bk ∈ (g.generate_sector glob w sector).2.2.2 →
      y' ≠ g1.water_level - 1) := by
  have hev := generate_sector_events g glob w sector glob1 r1 g1 mb1 hre hga hguard hrange
  rw [hev]
  have hb32 : g1.height_base = 32 := by
    have h := applyTheme_height_base { g with rand := r1 } glob1.TERRAIN_CHOICE Block.grass
    rw [hga] at h
    exact h
  set bp := w.sector_to_blockpos sector with hbp
  set g2 : TerrainGeneratorSimple := { g1 with rand := g1.rand.seed bp } with hg2
  have hhb : ¬ bp.2.1 < g2.height_base := by
    show ¬ bp.2.1 < g1.height_base
    omega
  have hb0 : bp.2.1 ≠ 0 := by omega
  have hwl2 : g2.surfY (bp.2.1 + 8) x z ≤ g2.water_level := hwl
  have hcf : colsFold g2 glob1.TERRAIN_CHOICE glob1.TREE_CHANCE glob1.WILDFOOD_CHANCE
      glob1.GRASS_CHANCE bp.2.1 (bp.2.1 + 8) (sectorCols bp.1 bp.2.2) mb1
      (g1.rand.seed bp) =
      (sectorCols bp.1 bp.2.2).foldl
        (colsStep g2 glob1.TERRAIN_CHOICE glob1.TREE_CHANCE glob1.WILDFOOD_CHANCE
          glob1.GRASS_CHANCE bp.2.1 (bp.2.1 + 8)) ([], mb1, g1.rand.seed bp) := rfl
  rw [hcf]
  have hmc : (x, z) ∈ sectorCols bp.1 bp.2.2 := mem_sectorCols hx.1 hx.2 hz.1 hz.2
  obtain ⟨mb', r', hsub⟩ := colsFold_col_events g2 glob1.TERRAIN_CHOICE glob1.TREE_CHANCE
    glob1.WILDFOOD_CHANCE glob1.GRASS_CHANCE bp.2.1 (bp.2.1 + 8)
    (sectorCols bp.1 bp.2.2) ([], mb1, g1.rand.seed bp) (x, z) hmc
  have hbw := colBody_below_water g2 glob1.TERRAIN_CHOICE glob1.TREE_CHANCE
    glob1.WILDFOOD_CHANCE glob1.GRASS_CHANCE bp.2.1 (bp.2.1 + 8) x z mb' r'
    hhb hb0 hwl2 hdes
  refine ⟨hsub _ hbw.1, ?_, hsub _ hbw.2.2.1, ?_⟩
  · obtain ⟨bk, hbk, hm⟩ := hbw.2.1
    exact ⟨bk, hbk, hsub _ hm⟩
  · intro y' bk hmem
    rcases colsFold_cover g2 glob1.TERRAIN_CHOICE glob1.TREE_CHANCE glob1.WILDFOOD_CHANCE
      glob1.GRASS_CHANCE bp.2.1 (bp.2.1 + 8) (sectorCols bp.1 bp.2.2)
      ([], mb1, g1.rand.seed bp) _ hmem with h | ⟨c, -, mb'', r'', hm⟩
    · exact absurd h (List.not_mem_nil _)
    · obtain ⟨cx, cz⟩ := c
      have hpos := colBody_pos g2 glob1.TERRAIN_CHOICE glob1.TREE_CHANCE
        glob1.WILDFOOD_CHANCE glob1.GRASS_CHANCE bp.2.1 (bp.2.1 + 8) cx cz mb'' r'' _ hm
      have hcx : x = cx := hpos.1
      have hcz : z = cz := hpos.2
      subst hcx
      subst hcz
      have hy := (colBody_below_water g2 glob1.TERRAIN_CHOICE glob1.TREE_CHANCE
        glob1.WILDFOOD_CHANCE glob1.GRASS_CHANCE bp.2.1 (bp.2.1 + 8) x z mb'' r''
        hhb hb0 hwl2 hdes).2.2.2 y' bk hm
      have hwlv : g2.water_level = g1.water_level := rfl
      rw [hwlv] at hy
      omega

/-- The theme-assigned generator state obtained from `sgW` under the snow
theme, for the C8 witness. -/
noncomputable def gSnowW : TerrainGeneratorSimple :=
  { rand := rW, noise2 := fun _ _ => 1, height_range := 32, height_base := 32
    island_shore := 34, water_level := 33, zoom_level := 0.002
    world_type_grass := default_world_type_grass, autogenerated_blocks := []
    weights := [-1] }

theorem gSnowW_height : gSnowW.get_height 0 0 = 32 := by
  simp only [TerrainGeneratorSimple.get_height, gSnowW, List.foldl_cons, List.foldl_nil]
  norm_num
  have hc : clampS 0 = 0 := by
    unfold clampS
    norm_num
  rw [hc]
  have h32 : (32 : ℝ) + 0 * 32 = ((32 : ℤ) : ℝ) := by norm_num
  rw [h32, pyInt_of_nonneg (by norm_num), Int.floor_intCast]

theorem gSnowW_surfY : gSnowW.surfY ((wEmpty.sector_to_blockpos (0, 0, 0)).2.1 + 8) 0 0 = 32 := by
  unfold TerrainGeneratorSimple.surfY
  rw [gSnowW_height]
  norm_num [wEmpty]

/-- C8 (witness): a below-water snow column of a freshly generated sector
receives ice at `water_level = 33`, a weighted block at 31, dirt at 30, and
nothing at 32. -/
theorem generate_sector_below_water_witness :
    (gSnowW.surfY ((wEmpty.sector_to_blockpos (0, 0, 0)).2.1 + 8) 0 0 ≤ gSnowW.water_level ∧
      globSnow.TERRAIN_CHOICE ≠ Theme.desert ∧
      sectorAlreadyGenerated gSnowW.autogenerated_blocks wEmpty (0, 0, 0) = false) ∧
    (Event.initBlock (0, gSnowW.water_level, 0)
        (if globSnow.TERRAIN_CHOICE = Theme.snow then Block.ice else Block.water)
        ∈ (sgW.generate_sector globSnow wEmpty (0, 0, 0)).2.2.2) ∧
    (∃ bk, bk ∈ underwater_blocks ∧
      Event.initBlock (0, gSnowW.water_level - 2, 0) bk
        ∈ (sgW.generate_sector globSnow wEmpty (0, 0, 0)).2.2.2) ∧
    (Event.initBlock (0, gSnowW.water_level - 3, 0) Block.dirt
        ∈ (sgW.generate_sector globSnow wEmpty (0, 0, 0)).2.2.2) ∧
    (∀ y' bk, Event.initBlock (0, y', 0) bk
        ∈ (sgW.generate_sector globSnow wEmpty (0, 0, 0)).2.2.2 →
      y' ≠ gSnowW.water_level - 1) := by
  have hre : biomeReroll sgW globSnow = (globSnow, rW) := by
    unfold biomeReroll
    rw [if_neg (by decide)]
    rfl
  have hga : applyTheme { sgW with rand := rW } globSnow.TERRAIN_CHOICE Block.grass =
      (gSnowW, Block.snowgrass) := rfl
  have hguard : sectorAlreadyGenerated gSnowW.autogenerated_blocks wEmpty (0, 0, 0)
      = false := rfl
  have hrange : 0 ≤ (wEmpty.sector_to_blockpos (0, 0, 0)).2.1 ∧
      (wEmpty.sector_to_blockpos (0, 0, 0)).2.1 < gSnowW.height_base + gSnowW.height_range := by
    constructor
    all_goals decide
  have hsurf : gSnowW.height_base ≤ (wEmpty.sector_to_blockpos (0, 0, 0)).2.1 := by decide
  have hx : (wEmpty.sector_to_blockpos (0, 0, 0)).1 ≤ 0 ∧
      (0 : ℤ) < (wEmpty.sector_to_blockpos (0, 0, 0)).1 + 8 := by
    constructor
    all_goals decide
  have hz : (wEmpty.sector_to_blockpos (0, 0, 0)).2.2 ≤ 0 ∧
      (0 : ℤ) < (wEmpty.sector_to_blockpos (0, 0, 0)).2.2 + 8 := by
    constructor
    all_goals decide
  have hdes : globSnow.TERRAIN_CHOICE ≠ Theme.desert := by decide
  have hwl : gSnowW.surfY ((wEmpty.sector_to_blockpos (0, 0, 0)).2.1 + 8) 0 0 ≤
      gSnowW.water_level := by
    rw [gSnowW_surfY]
    decide
  have hmain := generate_sector_below_water sgW globSnow wEmpty (0, 0, 0) globSnow rW
    gSnowW Block.snowgrass 0 0 hre hga hguard hrange hsurf hx hz hdes hwl
  exact ⟨⟨hwl, hdes, hguard⟩, hmain.1, hmain.2.1, hmain.2.2.1, hmain.2.2.2⟩

end Terrain
